import Mathlib

/-! Shallow embedding of the song-library service `noctusha/music`.

The Go sources `handlers/handlers.go`, `connection/connection.go` and
`models/models.go` are embedded as Lean functions.

* A Go `string` is a sequence of bytes: `GoString := List Nat`.
* A Go `int` is a 64-bit two's-complement integer: it is an `Int` here and
  every arithmetic step that can leave the range goes through `wrapInt`.
* The database engine, the process environment and the metadata service are
  the parameter `Env`; the committed tables and the log of calls are the
  `World`.
* A handler is a function from the request and the world to an outcome and
  the new world.  A run-time panic (nil dereference, slice bounds) is the
  outcome `Outcome.panic`.
-/

namespace Music

set_option maxRecDepth 100000

/-! ## Strings, integers and errors -/

/-- A Go string: its bytes. -/
abbrev GoString := List Nat

/-- The bytes of an ASCII literal. -/
def str (s : String) : GoString := s.toList.map Char.toNat

/-- The least Go `int` (64-bit): `-2^63`. -/
def minInt : Int := -9223372036854775808

/-- The greatest Go `int` (64-bit): `2^63 - 1`. -/
def maxInt : Int := 9223372036854775807

/-- The greatest `uint64`: `2^64 - 1`. -/
def maxUint64 : Nat := 18446744073709551615

/-- Two's-complement reduction of a mathematical integer to a Go `int`. -/
def wrapInt (x : Int) : Int :=
  (x + 9223372036854775808) % 18446744073709551616 - 9223372036854775808

/-- Go error values, as far as the service distinguishes or prints them. -/
inductive GoError where
  /-- The `strconv.ErrSyntax` number error. -/
  | numSyntax : GoError
  /-- The `strconv.ErrRange` number error. -/
  | numRange : GoError
  /-- The `sql.ErrNoRows` sentinel. -/
  | noRows : GoError
  /-- Any other error of `database/sql`, the driver or the HTTP client. -/
  | other : GoString → GoError
  /-- The error made by `fmt.Errorf(format, cause)`. -/
  | errorf : String → GoError → GoError
  deriving DecidableEq, Repr

/-! ## `strconv.Atoi` (64-bit platform) -/

/-- The digit loop of `strconv.ParseUint(s, 10, 64)`: `n` is the value read so
far.  A byte that is not a decimal digit is a syntax error with value 0; an
overflow of `uint64` is a range error with value `maxUint64`, reported as
soon as it is met. -/
def parseUintLoop : GoString → Nat → Nat × Option GoError
  | [], n => (n, none)
  | c :: cs, n =>
    if 48 ≤ c ∧ c ≤ 57 then
      -- cutoff = maxUint64/10 + 1
      if n ≥ maxUint64 / 10 + 1 then (maxUint64, some GoError.numRange)
      else
        -- n*10 cannot wrap below the cutoff; n1 < n is the wrap of n*10 + d
        let n1 := n * 10 + (c - 48)
        if n1 > maxUint64 then (maxUint64, some GoError.numRange)
        else parseUintLoop cs n1
    else (0, some GoError.numSyntax)

/-- The function `strconv.ParseUint(s, 10, 64)`. -/
def ParseUint (s : GoString) : Nat × Option GoError :=
  if s = [] then (0, some GoError.numSyntax) else parseUintLoop s 0

/-- The function `strconv.ParseInt(s, 10, 0)` with 64-bit `int`: on a range
error the nearest bound is returned together with the error. -/
def ParseInt (s : GoString) : Int × Option GoError :=
  match s with
  | [] => (0, some GoError.numSyntax)
  | c :: cs =>
    let neg := c = 45
    let body := if c = 43 ∨ c = 45 then cs else c :: cs
    match ParseUint body with
    | (_, some GoError.numSyntax) => (0, some GoError.numSyntax)
    | (un, _) =>
      -- cutoff = 1 << 63
      if ¬ neg ∧ un ≥ 9223372036854775808 then (maxInt, some GoError.numRange)
      else if neg ∧ un > 9223372036854775808 then (minInt, some GoError.numRange)
      else (if neg then -(un : Int) else (un : Int), none)

/-- The digit loop of the fast path of `strconv.Atoi`: `ch -= '0'` is byte
arithmetic, a byte outside `'0'..'9'` is a syntax error. -/
def atoiFastLoop : GoString → Int → Option Int
  | [], n => some n
  | ch :: cs, n =>
    let d := (ch + 256 - 48) % 256
    if d > 9 then none else atoiFastLoop cs (n * 10 + d)

/-- The function `strconv.Atoi` on a 64-bit platform: value and error.  Strings
of 1 to 18 bytes take the fast path, all others go through `ParseInt`. -/
def Atoi (s : GoString) : Int × Option GoError :=
  if 0 < s.length ∧ s.length < 19 then
    match s with
    | [] => (0, some GoError.numSyntax)
    | c :: cs =>
      let body := if c = 45 ∨ c = 43 then cs else c :: cs
      if body.length < 1 then (0, some GoError.numSyntax)
      else
        match atoiFastLoop body 0 with
        | none => (0, some GoError.numSyntax)
        | some n => (if c = 45 then -n else n, none)
  else ParseInt s

/-! ## `strings.Split` and `strings.Join` -/

/-- The loop of `strings.Split(s, "\n\n")`: `cur` holds, reversed, the bytes
of the piece being read.  The leftmost separator is cut first and the search
resumes after it. -/
def splitLoop : GoString → GoString → List GoString
  | [], cur => [cur.reverse]
  | 10 :: 10 :: rest, cur => cur.reverse :: splitLoop rest []
  | c :: rest, cur => splitLoop rest (c :: cur)

/-- The call `strings.Split(text, "\n\n")`. -/
def Split (text : GoString) : List GoString := splitLoop text []

/-- The function `strings.Join(elems, sep)`. -/
def Join : List GoString → GoString → GoString
  | [], _ => []
  | [a], _ => a
  | a :: b :: rest, sep => a ++ sep ++ Join (b :: rest) sep

/-- The slice expression `xs[lo:hi]` on a slice whose capacity is its length:
`none` is the run-time panic for bounds out of range. -/
def sliceOf {α : Type} (xs : List α) (lo hi : Int) : Option (List α) :=
  if 0 ≤ lo ∧ lo ≤ hi ∧ hi ≤ (xs.length : Int) then
    some ((xs.drop lo.toNat).take (hi.toNat - lo.toNat))
  else none

/-! ## The data model (`models/models.go`) and the database -/

/-- The struct `models.Song`; also a row of table `songs`. -/
structure Song where
  ID : Int
  Name : GoString
  GroupID : Int
  deriving DecidableEq, Repr

/-- The struct `models.SongDetails`; also a row of table `song_details`.  The
column `release_date` holds the text the driver hands back for the date. -/
structure SongDetails where
  ID : Int
  SongID : Int
  ReleaseDate : GoString
  Text : GoString
  Link : GoString
  deriving DecidableEq, Repr

/-- The struct `models.NewSongPayload`. -/
structure NewSongPayload where
  Group : GoString
  Song : GoString
  deriving DecidableEq, Repr

/-- The struct `models.EditSongPayload`. -/
structure EditSongPayload where
  Song : Song
  SongDetails : SongDetails
  deriving DecidableEq, Repr

/-- A row of table `groups(id, name)`. -/
structure GroupRow where
  id : Int
  name : GoString
  deriving DecidableEq, Repr

/-- The committed content of the three tables of `schema.go`. -/
structure Tables where
  groups : List GroupRow
  songs : List Song
  details : List SongDetails
  deriving DecidableEq, Repr

/-- The statements the repository sends through `database/sql`. -/
inductive Stmt where
  /-- The call `db.Begin()`. -/
  | begin : Stmt
  /-- The call `tx.Commit()`. -/
  | commit : Stmt
  /-- The call `tx.Rollback()`. -/
  | rollback : Stmt
  /-- Statement `SELECT text FROM song_details WHERE song_id = $1`. -/
  | selectText : Stmt
  /-- Statement `SELECT id FROM groups WHERE name = $1`. -/
  | selectGroupID : Stmt
  /-- Statement `INSERT INTO groups(name) VALUES ($1) RETURNING id`. -/
  | insertGroup : Stmt
  /-- Statement `SELECT id, name, group_id FROM songs WHERE id = $1`. -/
  | selectSong : Stmt
  /-- Statement `SELECT id, song_id, release_date, text, link FROM song_details WHERE song_id = $1`. -/
  | selectDetails : Stmt
  /-- Statement `UPDATE songs SET name = $1, group_id = $2 WHERE id = $3`. -/
  | updateSong : Stmt
  /-- Statement `UPDATE song_details SET release_date = $1, text = $2, link = $3 WHERE song_id = $4`. -/
  | updateDetails : Stmt
  /-- Statement `INSERT INTO songs (name, group_id) VALUES ($1, $2) RETURNING id`. -/
  | insertSong : Stmt
  /-- Statement `INSERT INTO song_details (song_id, release_date, text, link) VALUES ($1, $2, $3, $4)`. -/
  | insertDetails : Stmt
  deriving DecidableEq, Repr

/-- A value of the `[]interface{}` parameter list of a query. -/
inductive Param where
  /-- A string parameter. -/
  | s : GoString → Param
  /-- An int parameter. -/
  | i : Int → Param
  deriving DecidableEq, Repr

/-- Where reading the rows of a query can fail: `db.Query`, `rows.Scan` or
`rows.Err`. -/
inductive QueryStage where
  | exec : QueryStage
  | scan : QueryStage
  | iter : QueryStage
  deriving DecidableEq, Repr

/-- What lies outside the repository: the database engine, the process
environment and the metadata service.  Every theorem holds for all of them. -/
structure Env where
  /-- Whether a statement fails in the driver or the engine, with the message. -/
  fault : Stmt → Option GoString
  /-- How the engine reads a textual parameter compared with an integer
  column: the integer, or the message of the conversion error. -/
  intParam : GoString → Except GoString Int
  /-- The identifier the engine generates for the row an INSERT adds. -/
  newID : Stmt → Int
  /-- The answer of `db.Query(query, params...)` followed by the scan of all
  rows, on the given tables: the songs, or the stage that failed with the
  message. -/
  query : Tables → GoString → List Param → Except (QueryStage × GoString) (List Song)
  /-- The value of `os.Getenv("EXTERNAL_API_URL")`. -/
  apiBaseURL : GoString
  /-- The answer of `http.Get(url)`: a transport error, or the status code and
  the body decoded as `models.SongDetails` (or why it does not decode). -/
  httpGet : GoString → Except GoString (Int × Except GoString SongDetails)

/-- What a request leaves behind in the log: the repository methods called
with their arguments, the queries and transaction steps sent to the database,
and the calls to the metadata service. -/
inductive Event where
  | SongList (group name releaseDate text link : GoString) (limit offset : Int) : Event
  | TextListByID (id : GoString) : Event
  | GetGroupID (group : GoString) : Event
  | GetSongByID (songID : GoString) : Event
  | NewGroup (name : GoString) : Event
  | GetSongDetailsByID (songID : GoString) : Event
  | UpdateSong (song : Option Song) (songDetails : Option SongDetails) : Event
  | CreateSongWithDetails (song : Song) (details : SongDetails) : Event
  | dbQuery (query : GoString) (params : List Param) : Event
  | txBegin : Event
  | txCommit : Event
  | txRollback : Event
  | httpGet (url : GoString) : Event
  deriving DecidableEq, Repr

/-- The world a handler runs in: the committed tables and the log, oldest
event first. -/
structure World where
  tables : Tables
  trace : List Event
  deriving DecidableEq, Repr

/-- Append an event to the log. -/
def World.record (w : World) (e : Event) : World :=
  { w with trace := w.trace ++ [e] }

/-! ## Responses (`handlers.go`) -/

/-- The string built for the `error` field: a literal, or `fmt.Sprintf` of a
format with one argument. -/
inductive Msg where
  | lit (text : String) : Msg
  | fmtErr (format : String) (err : GoError) : Msg
  | fmtStr (format : String) (arg : GoString) : Msg
  | fmtInt (format : String) (arg : Int) : Msg
  deriving DecidableEq, Repr

/-- The struct `handlers.JSON`; `Err = none` is the empty string. -/
structure JSON where
  Err : Option Msg := none
  Songs : Option (List Song) := none
  Text : GoString := []
  deriving DecidableEq, Repr

/-- The payloads the handlers pass to `RespondJSON`. -/
inductive Payload where
  /-- A `JSON` struct. -/
  | json (j : JSON) : Payload
  /-- A `models.Song` (the create handler). -/
  | song (s : Song) : Payload
  /-- The map with keys `song` and `song_details` (the edit handler). -/
  | edited (song : Option Song) (songDetails : Option SongDetails) : Payload
  deriving DecidableEq, Repr

/-- Run-time panics of the Go code. -/
inductive Fault where
  /-- A nil pointer dereference. -/
  | nilDeref : Fault
  /-- Slice bounds out of range. -/
  | sliceBounds : Fault
  /-- Index out of range. -/
  | indexRange : Fault
  deriving DecidableEq, Repr

/-- What a handler does with the request: it writes a response, or panics. -/
inductive Outcome where
  | response (statusCode : Int) (payload : Payload) : Outcome
  | panic (f : Fault) : Outcome
  deriving DecidableEq, Repr

/-- The status code written, if a response was written. -/
def Outcome.status : Outcome → Option Int
  | Outcome.response c _ => some c
  | Outcome.panic _ => none

/-- The function `RespondJSON`: none of the payloads fails to marshal, so the
given status code is written with the payload. -/
def RespondJSON (statusCode : Int) (payload : Payload) : Outcome :=
  Outcome.response statusCode payload

/-- The helper `respondJSONError`. -/
def respondJSONError (statusCode : Int) (message : Msg) : Outcome :=
  RespondJSON statusCode (Payload.json { Err := some message })

/-- The type `url.Values`: query keys with their values.  The order of the
list is the order in which `range` visits the map. -/
abbrev Values := List (GoString × List GoString)

/-- The map lookup `v[key]`: `[]` when the key is absent. -/
def Values.at : Values → GoString → List GoString
  | [], _ => []
  | (k, vs) :: rest, key => if k = key then vs else Values.at rest key

/-- The method `url.Values.Get`: the first value of the key, or `""`. -/
def Values.Get (v : Values) (key : GoString) : GoString :=
  match Values.at v key with
  | [] => []
  | x :: _ => x

/-! ## `Repository.TextListByID` and `Handler.GetText` -/

/-- The call `db.QueryRow("SELECT text FROM song_details WHERE song_id = $1",
id).Scan(&text)`. -/
def queryRowText (env : Env) (t : Tables) (id : GoString) : Except GoError GoString :=
  match env.fault Stmt.selectText with
  | some m => Except.error (GoError.other m)
  | none =>
    match env.intParam id with
    | Except.error m => Except.error (GoError.other m)
    | Except.ok n =>
      match t.details.find? (fun d => d.SongID = n) with
      | none => Except.error GoError.noRows
      | some d => Except.ok d.Text

/-- The method `Repository.TextListByID`: `(text, ok, err)`. -/
def TextListByID (env : Env) (id : GoString) (w : World) :
    (GoString × Bool × Option GoError) × World :=
  let w := w.record (Event.TextListByID id)
  match queryRowText env w.tables id with
  | Except.error e =>
    if e = GoError.noRows then (([], false, none), w)
    else (([], false, some (GoError.errorf "error scanning song: %v" e)), w)
  | Except.ok text => ((text, true, none), w)

/-- The `page` variable of `GetText` after the clamp: the value `Atoi`
returns, its error dropped, raised to 1. -/
def effectivePage (pageParam : GoString) : Int :=
  let page := (Atoi pageParam).1
  if page < 1 then 1 else page

/-- The `limit` variable of `GetText` after the clamp. -/
def effectiveLimit (limitParam : GoString) : Int :=
  let r := Atoi limitParam
  if r.2 ≠ none ∨ r.1 ≤ 0 then 1 else r.1

/-- The pagination of `GetText` once the text is found: from `strings.Split`
to the response. -/
def paginate (text pageParam limitParam : GoString) : Outcome :=
  let verses := Split text
  let page := effectivePage pageParam
  let limit := effectiveLimit limitParam
  let start := wrapInt (wrapInt (page - 1) * limit)
  let endIdx := wrapInt (start + limit)
  if start ≥ (verses.length : Int) then
    respondJSONError 404 (Msg.lit "no more verses")
  else
    let endIdx := if endIdx > (verses.length : Int) then (verses.length : Int) else endIdx
    match sliceOf verses start endIdx with
    | none => Outcome.panic Fault.sliceBounds
    | some vs => RespondJSON 200 (Payload.json { Text := Join vs (str "\n\n") })

/-- The handler `GetText`. -/
def GetText (env : Env) (songID : GoString) (q : Values) (w : World) : Outcome × World :=
  match TextListByID env songID w with
  | ((_, _, some err), w1) =>
    (respondJSONError 500 (Msg.fmtErr "failed to retrieve text: %v" err), w1)
  | ((text, ok, none), w1) =>
    if ok = false then
      (respondJSONError 404 (Msg.fmtStr "no such text with song_id: %v" songID), w1)
    else (paginate text (q.Get (str "page")) (q.Get (str "limit")), w1)

/-! ## `Repository.SongList` -/

/-- The decimal digits of a natural number, as bytes. -/
def decimal (n : Nat) : GoString := (Nat.toDigits 10 n).map Char.toNat

/-- The call `fmt.Sprint(n)` on an `int`. -/
def Sprint (n : Int) : GoString :=
  if n < 0 then 45 :: decimal n.natAbs else decimal n.toNat

/-- The initial value of `query` in `SongList`. -/
def songListSelect : GoString :=
  str "\nSELECT\n\tsongs.id,\n\tsongs.name,\n\tsongs.group_id\nFROM\n    songs\nJOIN\n\tsong_details\nON\n\tsongs.id = song_details.song_id"

/-- The local variables `query`, `params` and `whereClauses` of `SongList`
at the call of `db.Query`. -/
structure SongQuery where
  query : GoString
  params : List Param
  whereClauses : List GoString
  deriving DecidableEq, Repr

/-- The statements of `SongList` up to the call of `db.Query`: the default
limit, the predicates of the non-empty filters, the text of the query. -/
def buildSongList (group name releaseDate text link : GoString) (limit offset : Int) :
    SongQuery :=
  let limit := if limit = 0 then 25 else limit
  let query := songListSelect
  let params : List Param := []
  let whereClauses : List GoString := []
  let (whereClauses, params) :=
    if group ≠ [] then
      (whereClauses ++ [str "songs.group_id = (SELECT id FROM groups WHERE name ILIKE $"
          ++ Sprint ((params.length : Int) + 1) ++ str ")"],
        params ++ [Param.s (str "%" ++ group ++ str "%")])
    else (whereClauses, params)
  let (whereClauses, params) :=
    if name ≠ [] then
      (whereClauses ++ [str "songs.name ILIKE $" ++ Sprint ((params.length : Int) + 1)],
        params ++ [Param.s (str "%" ++ name ++ str "%")])
    else (whereClauses, params)
  let (whereClauses, params) :=
    if releaseDate ≠ [] then
      (whereClauses ++ [str "song_details.release_date = $"
          ++ Sprint ((params.length : Int) + 1)],
        params ++ [Param.s releaseDate])
    else (whereClauses, params)
  let (whereClauses, params) :=
    if text ≠ [] then
      (whereClauses ++ [str "song_details.text ILIKE $" ++ Sprint ((params.length : Int) + 1)],
        params ++ [Param.s (str "%" ++ text ++ str "%")])
    else (whereClauses, params)
  let (whereClauses, params) :=
    if link ≠ [] then
      (whereClauses ++ [str "song_details.link = $" ++ Sprint ((params.length : Int) + 1)],
        params ++ [Param.s link])
    else (whereClauses, params)
  let query :=
    if whereClauses.length > 0 then query ++ (str " WHERE " ++ Join whereClauses (str " AND "))
    else query
  let query := query ++ (str "\nORDER BY\n\tsongs.name\nLIMIT\n\t$"
    ++ Sprint ((params.length : Int) + 1) ++ str "\nOFFSET\n\t$"
    ++ Sprint ((params.length : Int) + 2))
  let params := params ++ [Param.i limit, Param.i offset]
  { query := query, params := params, whereClauses := whereClauses }

/-- The method `Repository.SongList`. -/
def SongList (env : Env) (group name releaseDate text link : GoString) (limit offset : Int)
    (w : World) : (List Song × Option GoError) × World :=
  let w := w.record (Event.SongList group name releaseDate text link limit offset)
  let b := buildSongList group name releaseDate text link limit offset
  let w := w.record (Event.dbQuery b.query b.params)
  match env.query w.tables b.query b.params with
  | Except.error (QueryStage.exec, m) =>
    (([], some (GoError.errorf "error executing query: %v" (GoError.other m))), w)
  | Except.error (QueryStage.scan, m) =>
    (([], some (GoError.errorf "error scanning song: %v" (GoError.other m))), w)
  | Except.error (QueryStage.iter, m) =>
    (([], some (GoError.errorf "rows iteration error: %v" (GoError.other m))), w)
  | Except.ok songs => ((songs, none), w)

/-- Where the scan of a query text stands: outside a placeholder, just after
a `$`, or inside the digits of a placeholder. -/
inductive ScanState where
  | idle : ScanState
  | dollar : ScanState
  | num : Nat → ScanState
  deriving DecidableEq, Repr

/-- The placeholders `$1`, `$2`, ... of a query text, in order of occurrence:
a placeholder is a `$` followed by one or more decimal digits. -/
def scanPlaceholders : GoString → ScanState → List Nat
  | [], ScanState.num n => [n]
  | [], _ => []
  | c :: cs, ScanState.idle =>
    scanPlaceholders cs (if c = 36 then ScanState.dollar else ScanState.idle)
  | c :: cs, ScanState.dollar =>
    if 48 ≤ c ∧ c ≤ 57 then scanPlaceholders cs (ScanState.num (c - 48))
    else scanPlaceholders cs (if c = 36 then ScanState.dollar else ScanState.idle)
  | c :: cs, ScanState.num n =>
    if 48 ≤ c ∧ c ≤ 57 then scanPlaceholders cs (ScanState.num (n * 10 + (c - 48)))
    else n :: scanPlaceholders cs (if c = 36 then ScanState.dollar else ScanState.idle)

/-- The placeholder indices of a query text. -/
def placeholders (query : GoString) : List Nat := scanPlaceholders query ScanState.idle

/-- The shape of a filter: empty, or a fixed non-empty string.  The text of
the query depends on the filters through their shapes only. -/
def shape (s : GoString) : GoString := if s = [] then [] else [0]

/-! ## The engine's reading of the group predicate of `SongList` -/

/-- ASCII lower case of a byte. -/
def lowerByte (c : Nat) : Nat := if 65 ≤ c ∧ c ≤ 90 then c + 32 else c

/-- Whether `f` holds of some suffix of the string, the string itself and the
empty suffix included. -/
def anySuffix (f : GoString → Bool) : GoString → Bool
  | [] => f []
  | c :: cs => f (c :: cs) || anySuffix f cs

/-- The SQL operator `s ILIKE pattern` on ASCII text: `%` stands for any
sequence of characters, `_` for any single character, a backslash takes the
next character literally, every other character stands for itself in either
case. -/
def ilike : GoString → GoString → Bool
  | [], s => s.isEmpty
  | 37 :: p, s => anySuffix (ilike p) s
  | 95 :: p, s =>
    match s with
    | [] => false
    | _ :: t => ilike p t
  | 92 :: c :: p, s =>
    match s with
    | [] => false
    | x :: t => lowerByte x == lowerByte c && ilike p t
  | c :: p, s =>
    match s with
    | [] => false
    | x :: t => lowerByte x == lowerByte c && ilike p t

/-- The scalar subquery `(SELECT id FROM groups WHERE name ILIKE $k)`: NULL
(`none`) when no group matches, the identifier when one does, and the engine's
error when more than one row comes back. -/
def groupSubquery (t : Tables) (pattern : GoString) : Except GoString (Option Int) :=
  match t.groups.filter (fun g => ilike pattern g.name) with
  | [] => Except.ok none
  | [g] => Except.ok (some g.id)
  | _ :: _ :: _ =>
    Except.error (str "more than one row returned by a subquery used as an expression")

/-- The predicate `songs.group_id = (SELECT id FROM groups WHERE name ILIKE
$k)` on a song row: a comparison with NULL is not true. -/
def groupPredicate (t : Tables) (pattern : GoString) (song : Song) : Except GoString Bool :=
  match groupSubquery t pattern with
  | Except.error m => Except.error m
  | Except.ok none => Except.ok false
  | Except.ok (some id) => Except.ok (song.GroupID = id)

/-- Whether `sub` occurs in `s` when ASCII case is ignored: the substring test
of the claim. -/
def containsFold (s sub : GoString) : Bool :=
  anySuffix (fun t => (sub.map lowerByte).isPrefixOf t) (s.map lowerByte)

/-- Two groups whose names both contain `mus`, and one song of the first. -/
def twoGroupTables : Tables where
  groups := [{ id := 1, name := str "Muse" }, { id := 2, name := str "Museum" }]
  songs := [{ ID := 1, Name := str "Hysteria", GroupID := 1 }]
  details := [{ ID := 1, SongID := 1, ReleaseDate := str "2003-12-01", Text := str "It's bugging me",
                Link := str "http://l" }]

/-! ## `Handler.ListSongs` -/

/-- The local variables of `ListSongs` that the loop over the query fills. -/
structure ListVars where
  limit : Int := 0
  offset : Int := 0
  group : GoString := []
  name : GoString := []
  releaseDate : GoString := []
  text : GoString := []
  link : GoString := []
  deriving DecidableEq, Repr

/-- The index expression `vals[0]`; `none` is the index-out-of-range panic. -/
def first (vals : List GoString) : Option GoString := vals.head?

/-- The loop `for parameter, vals := range r.URL.Query()` of `ListSongs`, in
the order the map is visited: the variables after the loop, or the outcome of
the early return. -/
def listLoop : Values → ListVars → Except Outcome ListVars
  | [], v => Except.ok v
  | (parameter, vals) :: rest, v =>
    if parameter = str "limit" then
      match first vals with
      | none => Except.error (Outcome.panic Fault.indexRange)
      | some x =>
        match Atoi x with
        | (_, some err) =>
          Except.error (respondJSONError 400 (Msg.fmtErr "invalid limit format: %v" err))
        | (n, none) => listLoop rest { v with limit := n }
    else if parameter = str "offset" then
      match first vals with
      | none => Except.error (Outcome.panic Fault.indexRange)
      | some x =>
        match Atoi x with
        | (_, some err) =>
          Except.error (respondJSONError 400 (Msg.fmtErr "invalid offset format: %v" err))
        | (n, none) => listLoop rest { v with offset := n }
    else if parameter = str "group" then
      match first vals with
      | none => Except.error (Outcome.panic Fault.indexRange)
      | some x => listLoop rest { v with group := x }
    else if parameter = str "name" then
      match first vals with
      | none => Except.error (Outcome.panic Fault.indexRange)
      | some x => listLoop rest { v with name := x }
    else if parameter = str "releaseDate" then
      match first vals with
      | none => Except.error (Outcome.panic Fault.indexRange)
      | some x => listLoop rest { v with releaseDate := x }
    else if parameter = str "text" then
      match first vals with
      | none => Except.error (Outcome.panic Fault.indexRange)
      | some x => listLoop rest { v with text := x }
    else if parameter = str "link" then
      match first vals with
      | none => Except.error (Outcome.panic Fault.indexRange)
      | some x => listLoop rest { v with link := x }
    else
      Except.error (respondJSONError 400
        (Msg.fmtStr "unrecognized query parameter: %v" parameter))

/-- The handler `ListSongs`; `q` is `r.URL.Query()` in the order `range`
visits it. -/
def ListSongs (env : Env) (q : Values) (w : World) : Outcome × World :=
  match listLoop q {} with
  | Except.error out => (out, w)
  | Except.ok v =>
    match SongList env v.group v.name v.releaseDate v.text v.link v.limit v.offset w with
    | ((_, some err), w1) =>
      (respondJSONError 500 (Msg.fmtErr "failed to select song from database: %v" err), w1)
    | ((songs, none), w1) => (RespondJSON 200 (Payload.json { Songs := some songs }), w1)

/-- The keys the list endpoint accepts. -/
def allowedKeys : List GoString :=
  [str "limit", str "offset", str "group", str "name", str "releaseDate", str "text",
   str "link"]

/-- A query as `url.ParseQuery` builds it: a map, so no key occurs twice, and
every key present has at least one value. -/
def Values.WellFormed (q : Values) : Prop :=
  (q.map Prod.fst).Nodup ∧ ∀ e ∈ q, e.2 ≠ []

/-- The condition under which the claim has the list endpoint answer 400: a
key outside the allow-list, or a `limit` or `offset` key whose first value
`Atoi` rejects. -/
def Values.Rejected (q : Values) : Prop :=
  (∃ e ∈ q, e.1 ∉ allowedKeys) ∨
  (q.at (str "limit") ≠ [] ∧ (Atoi (q.Get (str "limit"))).2 ≠ none) ∨
  (q.at (str "offset") ≠ [] ∧ (Atoi (q.Get (str "offset"))).2 ≠ none)

/-- The arguments the claim has `ListSongs` pass on: for each key present its
first value (read by `Atoi` for `limit` and `offset`), for an absent key the
value the variable had before the loop. -/
def Values.listVars (q : Values) (v : ListVars) : ListVars where
  limit := if q.at (str "limit") = [] then v.limit else (Atoi (q.Get (str "limit"))).1
  offset := if q.at (str "offset") = [] then v.offset else (Atoi (q.Get (str "offset"))).1
  group := if q.at (str "group") = [] then v.group else q.Get (str "group")
  name := if q.at (str "name") = [] then v.name else q.Get (str "name")
  releaseDate :=
    if q.at (str "releaseDate") = [] then v.releaseDate else q.Get (str "releaseDate")
  text := if q.at (str "text") = [] then v.text else q.Get (str "text")
  link := if q.at (str "link") = [] then v.link else q.Get (str "link")

/-! ## The other repository methods (`connection.go`) -/

/-- The method `Repository.GetGroupID`: 0 when no group has the name. -/
def GetGroupID (env : Env) (group : GoString) (w : World) : (Int × Option GoError) × World :=
  let w := w.record (Event.GetGroupID group)
  match env.fault Stmt.selectGroupID with
  | some m => ((0, some (GoError.errorf "error scanning group: %v" (GoError.other m))), w)
  | none =>
    match w.tables.groups.find? (fun g => g.name = group) with
    | none => ((0, none), w)
    | some g => ((g.id, none), w)

/-- The method `Repository.GetSongByID`: `(nil, nil)` when no song has the
identifier. -/
def GetSongByID (env : Env) (songID : GoString) (w : World) :
    (Option Song × Option GoError) × World :=
  let w := w.record (Event.GetSongByID songID)
  match env.fault Stmt.selectSong with
  | some m => ((none, some (GoError.errorf "error scanning song: %v" (GoError.other m))), w)
  | none =>
    match env.intParam songID with
    | Except.error m =>
      ((none, some (GoError.errorf "error scanning song: %v" (GoError.other m))), w)
    | Except.ok n =>
      match w.tables.songs.find? (fun s => s.ID = n) with
      | none => ((none, none), w)
      | some song => ((some song, none), w)

/-- The method `Repository.NewGroup`. -/
def NewGroup (env : Env) (name : GoString) (w : World) : (Int × Option GoError) × World :=
  let w := w.record (Event.NewGroup name)
  match env.fault Stmt.insertGroup with
  | some m => ((0, some (GoError.errorf "error inserting group: %v" (GoError.other m))), w)
  | none =>
    let id := env.newID Stmt.insertGroup
    ((id, none),
      { w with tables := { w.tables with groups := w.tables.groups ++ [{ id := id, name := name }] } })

/-- The method `Repository.GetSongDetailsByID`: `(nil, nil)` when the song has
no details row. -/
def GetSongDetailsByID (env : Env) (songID : GoString) (w : World) :
    (Option SongDetails × Option GoError) × World :=
  let w := w.record (Event.GetSongDetailsByID songID)
  match env.fault Stmt.selectDetails with
  | some m => ((none, some (GoError.errorf "error scanning song: %v" (GoError.other m))), w)
  | none =>
    match env.intParam songID with
    | Except.error m =>
      ((none, some (GoError.errorf "error scanning song: %v" (GoError.other m))), w)
    | Except.ok n =>
      match w.tables.details.find? (fun d => d.SongID = n) with
      | none => ((none, none), w)
      | some d => ((some d, none), w)

/-- The call `tx.Rollback()` of the deferred function; its error is not looked
at.  The work of the transaction is dropped, the committed tables stay as they
are whether or not the call fails. -/
def txRollback (w : World) : World := w.record Event.txRollback

/-- The call `tx.Commit()` of the deferred function; its error is not looked
at.  When it succeeds the tables of the transaction become the committed
ones, when it fails nothing is kept. -/
def txCommit (env : Env) (tx : Tables) (w : World) : World :=
  let w := w.record Event.txCommit
  match env.fault Stmt.commit with
  | some _ => w
  | none => { w with tables := tx }

/-- The method `Repository.UpdateSong`.  The arguments are pointers: reading a
field of a nil pointer panics, the deferred function rolls back and panics
again. -/
def UpdateSong (env : Env) (song : Option Song) (songDetails : Option SongDetails)
    (w : World) : Except Fault (Option GoError) × World :=
  let w := w.record (Event.UpdateSong song songDetails)
  match env.fault Stmt.begin with
  | some m =>
    (Except.ok (some (GoError.errorf "failed to start transaction: %v" (GoError.other m))), w)
  | none =>
    let w := w.record Event.txBegin
    let tx := w.tables
    match song with
    | none => (Except.error Fault.nilDeref, txRollback w)
    | some s =>
      match env.fault Stmt.updateSong with
      | some m =>
        (Except.ok (some (GoError.errorf "error updating song: %v" (GoError.other m))),
          txRollback w)
      | none =>
        let tx : Tables := { tx with songs := tx.songs.map (fun (r : Song) =>
          if r.ID = s.ID then { r with Name := s.Name, GroupID := s.GroupID } else r) }
        match songDetails with
        | none => (Except.error Fault.nilDeref, txRollback w)
        | some d =>
          match env.fault Stmt.updateDetails with
          | some m =>
            (Except.ok (some (GoError.errorf "error updating song_details: %v"
              (GoError.other m))), txRollback w)
          | none =>
            let tx : Tables := { tx with details := tx.details.map (fun (r : SongDetails) =>
              if r.SongID = d.SongID then
                { r with ReleaseDate := d.ReleaseDate, Text := d.Text, Link := d.Link }
              else r) }
            (Except.ok none, txCommit env tx w)

/-- The method `Repository.CreateSongWithDetails`.  The deferred function
rolls back when `err` is set and commits otherwise. -/
def CreateSongWithDetails (env : Env) (song : Song) (details : SongDetails) (w : World) :
    Option GoError × World :=
  let w := w.record (Event.CreateSongWithDetails song details)
  match env.fault Stmt.begin with
  | some m => (some (GoError.errorf "failed to start transaction: %v" (GoError.other m)), w)
  | none =>
    let w := w.record Event.txBegin
    let tx := w.tables
    match env.fault Stmt.insertSong with
    | some m =>
      (some (GoError.errorf "failed to insert song: %v" (GoError.other m)), txRollback w)
    | none =>
      let songID := env.newID Stmt.insertSong
      let tx : Tables := { tx with songs := tx.songs ++
        [{ ID := songID, Name := song.Name, GroupID := song.GroupID }] }
      match env.fault Stmt.insertDetails with
      | some m =>
        (some (GoError.errorf "failed to insert song details: %v" (GoError.other m)),
          txRollback w)
      | none =>
        let tx : Tables := { tx with details := tx.details ++
          [{ ID := env.newID Stmt.insertDetails, SongID := songID,
             ReleaseDate := details.ReleaseDate, Text := details.Text, Link := details.Link }] }
        (none, txCommit env tx w)

/-! ## `Handler.EditSong` and `Handler.NewSong` -/

/-- An assignment to a field through a pointer: it panics on a nil pointer. -/
def assign {α : Type} (p : Option α) (f : α → α) : Except Fault (Option α) :=
  match p with
  | none => Except.error Fault.nilDeref
  | some a => Except.ok (some (f a))

/-- The two conditional assignments of `EditSong` to `song.Name` and
`song.GroupID`. -/
def editSongFields (song : Option Song) (payload : EditSongPayload) :
    Except Fault (Option Song) := do
  let song ←
    if payload.Song.Name ≠ [] then
      assign song (fun s => { s with Name := payload.Song.Name })
    else pure song
  let song ←
    if payload.Song.GroupID ≠ 0 then
      assign song (fun s => { s with GroupID := payload.Song.GroupID })
    else pure song
  pure song

/-- The three conditional assignments of `EditSong` to the fields of
`songDetails`. -/
def editDetailsFields (songDetails : Option SongDetails) (payload : EditSongPayload) :
    Except Fault (Option SongDetails) := do
  let songDetails ←
    if payload.SongDetails.ReleaseDate ≠ [] then
      assign songDetails (fun d => { d with ReleaseDate := payload.SongDetails.ReleaseDate })
    else pure songDetails
  let songDetails ←
    if payload.SongDetails.Text ≠ [] then
      assign songDetails (fun d => { d with Text := payload.SongDetails.Text })
    else pure songDetails
  let songDetails ←
    if payload.SongDetails.Link ≠ [] then
      assign songDetails (fun d => { d with Link := payload.SongDetails.Link })
    else pure songDetails
  pure songDetails

/-- The handler `EditSong`; `body` is what `json.NewDecoder(r.Body).Decode`
yields, the payload or the decoding error.  The variables `song` and
`songDetails` are pointers. -/
def EditSong (env : Env) (songID : GoString) (body : Except GoString EditSongPayload)
    (w : World) : Outcome × World :=
  match GetSongByID env songID w with
  | ((_, some err), w1) =>
    (respondJSONError 500 (Msg.fmtErr "failed to retrieve song: %v" err), w1)
  | ((song, none), w1) =>
    match body with
    | Except.error m =>
      (respondJSONError 400
        (Msg.fmtErr "failed to decode updatedSong body: %v" (GoError.other m)), w1)
    | Except.ok payload =>
      match editSongFields song payload with
      | Except.error f => (Outcome.panic f, w1)
      | Except.ok song =>
        match GetSongDetailsByID env songID w1 with
        | ((_, some err), w2) =>
          (respondJSONError 500 (Msg.fmtErr "failed to retrieve song: %v" err), w2)
        | ((songDetails, none), w2) =>
          match editDetailsFields songDetails payload with
          | Except.error f => (Outcome.panic f, w2)
          | Except.ok songDetails =>
            match UpdateSong env song songDetails w2 with
            | (Except.error f, w3) => (Outcome.panic f, w3)
            | (Except.ok (some err), w3) =>
              (respondJSONError 500 (Msg.fmtErr "failed to update song: %v" err), w3)
            | (Except.ok none, w3) =>
              (RespondJSON 200 (Payload.edited song songDetails), w3)

/-- The upper-case hexadecimal digit of a value below 16. -/
def upperhex (n : Nat) : Nat := if n < 10 then 48 + n else 55 + n

/-- The function `url.QueryEscape`: letters, digits and `-_.~` are kept, a
space becomes `+`, every other byte becomes `%XX`. -/
def QueryEscape (s : GoString) : GoString :=
  s.flatMap (fun c =>
    if (48 ≤ c ∧ c ≤ 57) ∨ (65 ≤ c ∧ c ≤ 90) ∨ (97 ≤ c ∧ c ≤ 122)
        ∨ c = 45 ∨ c = 95 ∨ c = 46 ∨ c = 126 then [c]
    else if c = 32 then [43]
    else [37, upperhex (c / 16), upperhex (c % 16)])

/-- The handler `NewSong`; `body` is what `json.NewDecoder(r.Body).Decode`
yields. -/
def NewSong (env : Env) (body : Except GoString NewSongPayload) (w : World) :
    Outcome × World :=
  match body with
  | Except.error m =>
    (respondJSONError 400 (Msg.fmtErr "failed to decode song: %v" (GoError.other m)), w)
  | Except.ok payload =>
    if payload.Group = [] then (respondJSONError 400 (Msg.lit "no group name"), w)
    else if payload.Song = [] then (respondJSONError 400 (Msg.lit "no song name"), w)
    else if env.apiBaseURL = [] then
      (respondJSONError 500 (Msg.lit "External API URL is not configured"), w)
    else
      let apiURL := env.apiBaseURL ++ str "/info?group=" ++ QueryEscape payload.Group
        ++ str "&song=" ++ QueryEscape payload.Song
      let w := w.record (Event.httpGet apiURL)
      match env.httpGet apiURL with
      | Except.error m =>
        (respondJSONError 500
          (Msg.fmtErr "Error making request to external API: %v" (GoError.other m)), w)
      | Except.ok (statusCode, decoded) =>
        if statusCode ≠ 200 then
          (respondJSONError 500 (Msg.fmtInt "External API returned status %d" statusCode), w)
        else
          match decoded with
          | Except.error m =>
            (respondJSONError 500
              (Msg.fmtErr "Error parsing external API response: %v" (GoError.other m)), w)
          | Except.ok details =>
            match GetGroupID env payload.Group w with
            | ((_, some err), w1) =>
              (respondJSONError 500 (Msg.fmtErr "failed to retrieve groupID: %v" err), w1)
            | ((groupID, none), w1) =>
              match (if groupID = 0 then NewGroup env payload.Group w1
                     else ((groupID, none), w1)) with
              | ((_, some err), w2) =>
                (respondJSONError 500 (Msg.fmtErr "failed to retrieve groupID: %v" err), w2)
              | ((groupID, none), w2) =>
                let song : Song := { ID := 0, Name := payload.Song, GroupID := groupID }
                match CreateSongWithDetails env song details w2 with
                | (some err, w3) =>
                  (respondJSONError 400 (Msg.fmtErr "failed to create song: %v" err), w3)
                | (none, w3) => (RespondJSON 201 (Payload.song song), w3)

/-! ## Walking through the pages of a text -/

/-- The query `?page=..&limit=..` with both numbers printed in decimal. -/
def pageValues (page limit : Int) : Values :=
  [(str "page", [Sprint page]), (str "limit", [Sprint limit])]

/-- The `text` field of the `JSON` payload of a response; empty when the
outcome carries none. -/
def Outcome.text : Outcome → GoString
  | Outcome.response _ (Payload.json j) => j.Text
  | _ => []

/-- The number of pages of `n` verses at `l` verses a page: `ceil(n/l)`. -/
def pageCount (n : Nat) (l : Int) : Nat := (n + l.toNat - 1) / l.toNat

/-! ## Concrete surroundings for the examples -/

/-- An engine that never fails, reads integer parameters the way `Atoi` does
and generates the identifier 7; a metadata service that answers 200. -/
def exampleEnv : Env where
  fault := fun _ => none
  intParam := fun s =>
    match Atoi s with
    | (n, none) => Except.ok n
    | _ => Except.error (str "invalid input syntax for type integer")
  newID := fun _ => 7
  query := fun _ _ _ => Except.ok []
  apiBaseURL := str "http://api"
  httpGet := fun _ =>
    Except.ok (200, Except.ok { ID := 0, SongID := 0, ReleaseDate := str "2006-07-16",
                                Text := str "Ooh baby", Link := str "http://l" })

/-- A world with one group, one song (id 1) and its lyrics, and an empty log. -/
def worldWithLyrics (text : GoString) : World where
  tables :=
    { groups := [{ id := 1, name := str "Muse" }]
      songs := [{ ID := 1, Name := str "Song", GroupID := 1 }]
      details := [{ ID := 1, SongID := 1, ReleaseDate := str "2006-07-16",
                    Text := text, Link := str "http://l" }] }
  trace := []

/-- The query `?page=..&limit=..`. -/
def pageQuery (page limit : String) : Values :=
  [(str "page", [str page]), (str "limit", [str limit])]

/-- The body `{"song":{"name":"X"}}` decoded: every other field is zero. -/
def namePayload : EditSongPayload :=
  { Song := { ID := 0, Name := str "X", GroupID := 0 },
    SongDetails := { ID := 0, SongID := 0, ReleaseDate := [], Text := [], Link := [] } }

/-- The body `{}` decoded. -/
def emptyPayload : EditSongPayload :=
  { Song := { ID := 0, Name := [], GroupID := 0 },
    SongDetails := { ID := 0, SongID := 0, ReleaseDate := [], Text := [], Link := [] } }

/-- The song the edit handler hands on, as the claim words it: the payload's
name and group where they are set, the stored values elsewhere, the stored
identifier always. -/
def mergedSong (stored : Song) (payload : EditSongPayload) : Song :=
  { ID := stored.ID
    Name := if payload.Song.Name = [] then stored.Name else payload.Song.Name
    GroupID := if payload.Song.GroupID = 0 then stored.GroupID else payload.Song.GroupID }

/-- The details the edit handler hands on, as the claim words it. -/
def mergedDetails (stored : SongDetails) (payload : EditSongPayload) : SongDetails :=
  { ID := stored.ID
    SongID := stored.SongID
    ReleaseDate :=
      if payload.SongDetails.ReleaseDate = [] then stored.ReleaseDate
      else payload.SongDetails.ReleaseDate
    Text := if payload.SongDetails.Text = [] then stored.Text else payload.SongDetails.Text
    Link := if payload.SongDetails.Link = [] then stored.Link else payload.SongDetails.Link }

/-- The engine of `exampleEnv`, except that the insert into `song_details`
fails. -/
def detailsFailEnv : Env :=
  { exampleEnv with
    fault := fun s =>
      if s = Stmt.insertDetails then some (str "invalid input syntax for type date")
      else none }

/-- The effective page as the claim words it: 1 when the page does not parse
(`Atoi` reports an error) or parses below 1, the parsed page otherwise. -/
def claimedPage (pageParam : GoString) : Int :=
  let r := Atoi pageParam
  if r.2 ≠ none ∨ r.1 < 1 then 1 else r.1

/-! # Theorems -/

theorem wrapInt_eq (x : Int) (h1 : minInt ≤ x) (h2 : x ≤ maxInt) : wrapInt x = x := by
  unfold wrapInt; unfold minInt at h1; unfold maxInt at h2; omega

theorem splitLoop_length_le (s cur : GoString) :
    (splitLoop s cur).length ≤ s.length / 2 + 1 := by
  induction s, cur using splitLoop.induct with
  | case1 cur => simp [splitLoop]
  | case2 rest cur ih => simp only [splitLoop, List.length_cons]; omega
  | case3 c rest cur h ih =>
    rw [splitLoop]
    · simp only [List.length_cons]; omega
    · exact h

theorem splitLoop_length_pos (s cur : GoString) : 1 ≤ (splitLoop s cur).length := by
  induction s, cur using splitLoop.induct with
  | case1 cur => simp [splitLoop]
  | case2 rest cur ih => simp only [splitLoop, List.length_cons]; omega
  | case3 c rest cur h ih =>
    rw [splitLoop]
    · exact ih
    · exact h

theorem atoiFastLoop_bound (s : GoString) : ∀ (n r : Int), 0 ≤ n → atoiFastLoop s n = some r →
    0 ≤ r ∧ r < (n + 1) * 10 ^ s.length := by
  induction s with
  | nil => intro n r hn h; simp [atoiFastLoop] at h; subst h; simp [hn]
  | cons c cs ih =>
    intro n r hn h
    simp only [atoiFastLoop] at h
    split at h
    · simp at h
    · rename_i hd
      have hd9 : (c + 256 - 48) % 256 ≤ 9 := by omega
      have h0 : (0 : Int) ≤ n * 10 + ((c + 256 - 48) % 256 : Nat) := by positivity
      obtain ⟨h1, h2⟩ := ih _ r h0 h
      refine ⟨h1, lt_of_lt_of_le h2 ?_⟩
      have hp : (0 : Int) ≤ 10 ^ cs.length := by positivity
      have hle : n * 10 + ((c + 256 - 48) % 256 : Nat) + 1 ≤ (n + 1) * 10 := by
        have : (((c + 256 - 48) % 256 : Nat) : Int) ≤ 9 := by exact_mod_cast hd9
        linarith
      calc (n * 10 + ((c + 256 - 48) % 256 : Nat) + 1) * 10 ^ cs.length
          ≤ ((n + 1) * 10) * 10 ^ cs.length := mul_le_mul_of_nonneg_right hle hp
        _ = (n + 1) * 10 ^ (c :: cs).length := by rw [List.length_cons, pow_succ]; ring

theorem ParseInt_range (s : GoString) : minInt ≤ (ParseInt s).1 ∧ (ParseInt s).1 ≤ maxInt := by
  unfold ParseInt
  cases s with
  | nil => simp [minInt, maxInt]
  | cons c cs =>
    dsimp only
    generalize (if c = 43 ∨ c = 45 then cs else c :: cs) = body
    rcases hp : ParseUint body with ⟨un, e⟩
    by_cases he : e = some GoError.numSyntax
    · subst he; simp [minInt, maxInt]
    · have hm : (match (un, e) with
          | (_, some GoError.numSyntax) => ((0 : Int), some GoError.numSyntax)
          | (un, _) =>
            if ¬ c = 45 ∧ un ≥ 9223372036854775808 then (maxInt, some GoError.numRange)
            else if c = 45 ∧ un > 9223372036854775808 then (minInt, some GoError.numRange)
            else (if c = 45 then -(un : Int) else (un : Int), none)) =
          (if ¬ c = 45 ∧ un ≥ 9223372036854775808 then (maxInt, some GoError.numRange)
            else if c = 45 ∧ un > 9223372036854775808 then (minInt, some GoError.numRange)
            else (if c = 45 then -(un : Int) else (un : Int), none)) := by
        split
        · rename_i h; simp only [Prod.mk.injEq] at h; exact absurd h.2 he
        · rename_i h; simp only [Prod.mk.injEq] at h; obtain ⟨h1, h2⟩ := h; subst h1; rfl
      rw [hm]
      by_cases h1 : ¬ c = 45 ∧ un ≥ 9223372036854775808
      · rw [if_pos h1]; simp [minInt, maxInt]
      · rw [if_neg h1]
        by_cases h2 : c = 45 ∧ un > 9223372036854775808
        · rw [if_pos h2]; simp [minInt, maxInt]
        · rw [if_neg h2]
          by_cases hneg : c = 45
          · simp only [hneg, if_true]
            simp only [hneg, true_and, not_true_eq_false, false_and, not_false_eq_true] at h1 h2
            unfold minInt maxInt; omega
          · simp only [hneg, if_false]
            simp only [hneg, false_and, not_false_eq_true, true_and] at h1 h2
            unfold minInt maxInt; omega

theorem Atoi_range (s : GoString) : minInt ≤ (Atoi s).1 ∧ (Atoi s).1 ≤ maxInt := by
  unfold Atoi
  by_cases hlen : 0 < s.length ∧ s.length < 19
  · rw [if_pos hlen]
    cases s with
    | nil => simp [minInt, maxInt]
    | cons c cs =>
      dsimp only
      have hl : (if c = 45 ∨ c = 43 then cs else c :: cs).length ≤ 18 := by
        split <;> simp only [List.length_cons] at * <;> omega
      generalize (if c = 45 ∨ c = 43 then cs else c :: cs) = body at hl
      by_cases hb : body.length < 1
      · rw [if_pos hb]; simp [minInt, maxInt]
      · rw [if_neg hb]
        cases hn : atoiFastLoop body 0 with
        | none => simp [minInt, maxInt]
        | some n =>
          obtain ⟨hb1, hb2⟩ := atoiFastLoop_bound _ 0 n (le_refl 0) hn
          have hpow : (10 : Int) ^ body.length ≤ 10 ^ 18 :=
            pow_le_pow_right₀ (by norm_num) hl
          have h18 : (10 : Int) ^ 18 = 1000000000000000000 := by norm_num
          simp only [zero_add, one_mul] at hb2
          dsimp only
          unfold minInt maxInt
          split <;> omega
  · rw [if_neg hlen]; exact ParseInt_range s

theorem ParseInt_syntax (s : GoString) (h : (ParseInt s).2 = some GoError.numSyntax) :
    (ParseInt s).1 = 0 := by
  unfold ParseInt at h ⊢
  cases s with
  | nil => rfl
  | cons c cs =>
    dsimp only at h ⊢
    generalize (if c = 43 ∨ c = 45 then cs else c :: cs) = body at h ⊢
    rcases hp : ParseUint body with ⟨un, e⟩
    rw [hp] at h
    by_cases he : e = some GoError.numSyntax
    · subst he; rfl
    · have hm : (match (un, e) with
          | (_, some GoError.numSyntax) => ((0 : Int), some GoError.numSyntax)
          | (un, _) =>
            if ¬ c = 45 ∧ un ≥ 9223372036854775808 then (maxInt, some GoError.numRange)
            else if c = 45 ∧ un > 9223372036854775808 then (minInt, some GoError.numRange)
            else (if c = 45 then -(un : Int) else (un : Int), none)) =
          (if ¬ c = 45 ∧ un ≥ 9223372036854775808 then (maxInt, some GoError.numRange)
            else if c = 45 ∧ un > 9223372036854775808 then (minInt, some GoError.numRange)
            else (if c = 45 then -(un : Int) else (un : Int), none)) := by
        split
        · rename_i h; simp only [Prod.mk.injEq] at h; exact absurd h.2 he
        · rename_i h; simp only [Prod.mk.injEq] at h; obtain ⟨h1, h2⟩ := h; subst h1; rfl
      rw [hm] at h
      exfalso
      by_cases h1 : ¬ c = 45 ∧ un ≥ 9223372036854775808
      · rw [if_pos h1] at h; simp at h
      · rw [if_neg h1] at h
        by_cases h2 : c = 45 ∧ un > 9223372036854775808
        · rw [if_pos h2] at h; simp at h
        · rw [if_neg h2] at h; simp at h

theorem Atoi_syntax (s : GoString) (h : (Atoi s).2 = some GoError.numSyntax) :
    (Atoi s).1 = 0 := by
  unfold Atoi at h ⊢
  by_cases hlen : 0 < s.length ∧ s.length < 19
  · rw [if_pos hlen] at h ⊢
    cases s with
    | nil => rfl
    | cons c cs =>
      dsimp only at h ⊢
      generalize (if c = 45 ∨ c = 43 then cs else c :: cs) = body at h ⊢
      by_cases hb : body.length < 1
      · rw [if_pos hb]
      · rw [if_neg hb] at h ⊢
        cases hn : atoiFastLoop body 0 with
        | none => rfl
        | some n => rw [hn] at h; simp at h
  · rw [if_neg hlen] at h ⊢
    exact ParseInt_syntax s h

theorem ParseInt_rangeErr (s : GoString) (h : (ParseInt s).2 = some GoError.numRange) :
    (ParseInt s).1 = maxInt ∨ (ParseInt s).1 = minInt := by
  unfold ParseInt at h ⊢
  cases s with
  | nil => simp at h
  | cons c cs =>
    dsimp only at h ⊢
    generalize (if c = 43 ∨ c = 45 then cs else c :: cs) = body at h ⊢
    rcases hp : ParseUint body with ⟨un, e⟩
    rw [hp] at h
    by_cases he : e = some GoError.numSyntax
    · subst he; simp at h
    · have hm : (match (un, e) with
          | (_, some GoError.numSyntax) => ((0 : Int), some GoError.numSyntax)
          | (un, _) =>
            if ¬ c = 45 ∧ un ≥ 9223372036854775808 then (maxInt, some GoError.numRange)
            else if c = 45 ∧ un > 9223372036854775808 then (minInt, some GoError.numRange)
            else (if c = 45 then -(un : Int) else (un : Int), none)) =
          (if ¬ c = 45 ∧ un ≥ 9223372036854775808 then (maxInt, some GoError.numRange)
            else if c = 45 ∧ un > 9223372036854775808 then (minInt, some GoError.numRange)
            else (if c = 45 then -(un : Int) else (un : Int), none)) := by
        split
        · rename_i h; simp only [Prod.mk.injEq] at h; exact absurd h.2 he
        · rename_i h; simp only [Prod.mk.injEq] at h; obtain ⟨h1, h2⟩ := h; subst h1; rfl
      rw [hm] at h ⊢
      by_cases h1 : ¬ c = 45 ∧ un ≥ 9223372036854775808
      · rw [if_pos h1]; exact Or.inl rfl
      · rw [if_neg h1] at h ⊢
        by_cases h2 : c = 45 ∧ un > 9223372036854775808
        · rw [if_pos h2]; exact Or.inr rfl
        · rw [if_neg h2] at h; simp at h

theorem Atoi_rangeErr (s : GoString) (h : (Atoi s).2 = some GoError.numRange) :
    (Atoi s).1 = maxInt ∨ (Atoi s).1 = minInt := by
  unfold Atoi at h ⊢
  by_cases hlen : 0 < s.length ∧ s.length < 19
  · rw [if_pos hlen] at h
    exfalso
    cases s with
    | nil => simp at h
    | cons c cs =>
      dsimp only at h
      generalize (if c = 45 ∨ c = 43 then cs else c :: cs) = body at h
      by_cases hb : body.length < 1
      · rw [if_pos hb] at h; simp at h
      · rw [if_neg hb] at h
        cases hn : atoiFastLoop body 0 with
        | none => rw [hn] at h; simp at h
        | some n => rw [hn] at h; simp at h
  · rw [if_neg hlen] at h ⊢
    exact ParseInt_rangeErr s h

theorem effectivePage_pos (s : GoString) : 1 ≤ effectivePage s := by
  unfold effectivePage; dsimp only; split <;> omega

theorem effectiveLimit_bounds (s : GoString) :
    1 ≤ effectiveLimit s ∧ effectiveLimit s ≤ maxInt := by
  have h := Atoi_range s
  unfold effectiveLimit; dsimp only
  split
  · simp [maxInt]
  · rename_i hc
    simp only [not_or, not_le] at hc
    exact ⟨by omega, h.2⟩

/-- What `paginate` answers when `(page-1)*limit` stays within the `int`
range: 404 from the first verse index past the end, otherwise 200 with the
verses of the page. -/
theorem paginate_eq (text pageParam limitParam : GoString)
    (hlen : (text.length : Int) ≤ maxInt)
    (hno : (effectivePage pageParam - 1) * effectiveLimit limitParam ≤ maxInt) :
    paginate text pageParam limitParam =
      if ((Split text).length : Int) ≤ (effectivePage pageParam - 1) * effectiveLimit limitParam
      then respondJSONError 404 (Msg.lit "no more verses")
      else RespondJSON 200 (Payload.json { Text := (Join
        (((Split text).take (min (effectivePage pageParam * effectiveLimit limitParam).toNat
            (Split text).length)).drop
          ((effectivePage pageParam - 1) * effectiveLimit limitParam).toNat) (str "\n\n")) }) := by
  have hp := effectivePage_pos pageParam
  obtain ⟨hl1, hl2⟩ := effectiveLimit_bounds limitParam
  have hvl : (Split text).length ≤ text.length / 2 + 1 := splitLoop_length_le text []
  unfold paginate
  dsimp only
  generalize effectivePage pageParam = p at *
  generalize effectiveLimit limitParam = l at *
  generalize (Split text) = verses at *
  have hS0 : 0 ≤ (p - 1) * l := mul_nonneg (by omega) (by omega)
  have hpl : p * l = (p - 1) * l + l := by ring
  have hS1 : p = 1 ∨ l ≤ (p - 1) * l := by
    by_cases h1 : p = 1
    · exact Or.inl h1
    · right
      have : 0 ≤ (p - 2) * l := mul_nonneg (by omega) (by omega)
      have h2 : (p - 1) * l = (p - 2) * l + l := by ring
      omega
  have hp1 : p - 1 ≤ (p - 1) * l := by
    have : 0 ≤ (p - 1) * (l - 1) := mul_nonneg (by omega) (by omega)
    have h2 : (p - 1) * l = (p - 1) * (l - 1) + (p - 1) := by ring
    omega
  have hS10 : p = 1 → (p - 1) * l = 0 := by intro h; rw [h]; ring
  unfold maxInt at hlen hno hl2
  rw [wrapInt_eq (p - 1) (by unfold minInt; omega) (by unfold maxInt; omega)]
  rw [hpl]
  generalize (p - 1) * l = S at *
  rw [wrapInt_eq S (by unfold minInt; omega) (by unfold maxInt; omega)]
  by_cases hge : (verses.length : Int) ≤ S
  · rw [if_pos hge, if_pos hge]
  · rw [if_neg hge, if_neg hge]
    have hSl : S + l ≤ 9223372036854775807 := by
      rcases hS1 with h1 | h1
      · have := hS10 h1; omega
      · omega
    rw [wrapInt_eq (S + l) (by unfold minInt; omega) (by unfold maxInt; omega)]
    unfold sliceOf
    by_cases hgt : S + l > (verses.length : Int)
    · rw [if_pos hgt, if_pos (by omega)]
      dsimp only
      rw [List.drop_take]
      have e1 : min (S + l).toNat verses.length = verses.length := by omega
      have e2 : (verses.length : Int).toNat = verses.length := by omega
      rw [e1, e2]
    · rw [if_neg hgt, if_pos (by omega)]
      dsimp only
      rw [List.drop_take]
      have e1 : min (S + l).toNat verses.length = (S + l).toNat := by omega
      rw [e1]

theorem TextListByID_fst_snd (env : Env) (id : GoString) (w : World) :
    (TextListByID env id w).2 = w.record (Event.TextListByID id) := by
  unfold TextListByID
  dsimp only
  split
  · split <;> rfl
  · rfl

/-- The handler `GetText` in terms of the repository's answer. -/
theorem GetText_fst (env : Env) (songID : GoString) (q : Values) (w : World) :
    (GetText env songID q w).1 =
      match (TextListByID env songID w).1 with
      | (_, _, some err) => respondJSONError 500 (Msg.fmtErr "failed to retrieve text: %v" err)
      | (text, ok, none) =>
        if ok = false then
          respondJSONError 404 (Msg.fmtStr "no such text with song_id: %v" songID)
        else paginate text (q.Get (str "page")) (q.Get (str "limit")) := by
  unfold GetText
  rcases TextListByID env songID w with ⟨⟨text, ok, e⟩, w1⟩
  cases e with
  | some err => rfl
  | none =>
    dsimp only
    split <;> rfl


/-! ## C1, C2: `GetText` -/

/-- C1 (as amended): let `verses` be the stored text split on the blank line,
`p` the effective page - the value `strconv.Atoi` returns for the page, its
error dropped, raised to 1 (so 1 for a page that is no number or is below 1,
and `2^63-1` for a number above the `int` range) - and `l` the effective limit
(1 when the limit does not parse or is `<= 0`).  Whenever
`(p-1)*l < len(verses)`, `GetText` responds 200 with the verses
`(p-1)*l .. min(p*l, len(verses))` rejoined with the blank line. -/
theorem GetText_page_content (env : Env) (songID : GoString) (q : Values) (w : World)
    (text : GoString) (p l : Int)
    (hlen : (text.length : Int) ≤ maxInt)
    (hfound : (TextListByID env songID w).1 = (text, true, none))
    (hp : p = if (Atoi (q.Get (str "page"))).1 < 1 then 1 else (Atoi (q.Get (str "page"))).1)
    (hl : l = if (Atoi (q.Get (str "limit"))).2 ≠ none ∨ (Atoi (q.Get (str "limit"))).1 ≤ 0
              then 1 else (Atoi (q.Get (str "limit"))).1)
    (hin : (p - 1) * l < ((Split text).length : Int)) :
    (GetText env songID q w).1 = Outcome.response 200 (Payload.json
        { Text := (Join (((Split text).take (min (p * l).toNat (Split text).length)).drop
                    ((p - 1) * l).toNat) (str "\n\n")) })
      ∧ ((Atoi (q.Get (str "page"))).2 = some GoError.numSyntax → p = 1)
      ∧ ((Atoi (q.Get (str "page"))).2 = some GoError.numRange → p = 1 ∨ p = maxInt) := by
  have hp' : p = effectivePage (q.Get (str "page")) := hp
  have hl' : l = effectiveLimit (q.Get (str "limit")) := hl
  constructor
  · have hvl : (Split text).length ≤ text.length / 2 + 1 := splitLoop_length_le text []
    have hno : (effectivePage (q.Get (str "page")) - 1) * effectiveLimit (q.Get (str "limit"))
        ≤ maxInt := by
      rw [← hp', ← hl']; unfold maxInt at hlen ⊢; omega
    rw [GetText_fst, hfound]
    dsimp only
    rw [if_neg (by decide), paginate_eq text _ _ hlen hno, ← hp', ← hl', if_neg (by omega)]
    rfl
  refine ⟨?_, ?_⟩
  · intro hs
    rw [hp, Atoi_syntax _ hs]
    rfl
  · intro hr
    rcases Atoi_rangeErr _ hr with h | h
    · right; rw [hp, h]; rfl
    · left; rw [hp, h]; rfl

/-- C1, the two pages of the lyrics `A`, `B`, `C` with limit 2: page 1 is
`A\n\nB` and page 2 is `C`. -/
theorem GetText_page_content_witness :
    (GetText exampleEnv (str "1") (pageQuery "1" "2")
        (worldWithLyrics (str "A\n\nB\n\nC"))).1
      = Outcome.response 200 (Payload.json { Text := str "A\n\nB" }) ∧
    (GetText exampleEnv (str "1") (pageQuery "2" "2")
        (worldWithLyrics (str "A\n\nB\n\nC"))).1
      = Outcome.response 200 (Payload.json { Text := str "C" }) :=
  ⟨(GetText_page_content exampleEnv (str "1") (pageQuery "1" "2")
      (worldWithLyrics (str "A\n\nB\n\nC")) (str "A\n\nB\n\nC") 1 2
      (by decide) (by decide) (by decide) (by decide) (by decide)).1.trans (by decide),
   (GetText_page_content exampleEnv (str "1") (pageQuery "2" "2")
      (worldWithLyrics (str "A\n\nB\n\nC")) (str "A\n\nB\n\nC") 2 2
      (by decide) (by decide) (by decide) (by decide) (by decide)).1.trans (by decide)⟩

/-- C1 as stated fails for a page above the `int` range: `Atoi` reports an
error for `9223372036854775808`, so the claim takes `p = 1` and promises the
first verse, while the handler keeps the value `2^63-1` that `Atoi` returns
with the error and answers 404. -/
theorem GetText_page_content_counterexample :
    (TextListByID exampleEnv (str "1") (worldWithLyrics (str "A"))).1 = (str "A", true, none) ∧
    (Atoi ((pageQuery "9223372036854775808" "1").Get (str "page")))
      = (9223372036854775807, some GoError.numRange) ∧
    claimedPage ((pageQuery "9223372036854775808" "1").Get (str "page")) = 1 ∧
    effectiveLimit ((pageQuery "9223372036854775808" "1").Get (str "limit")) = 1 ∧
    (claimedPage ((pageQuery "9223372036854775808" "1").Get (str "page")) - 1)
        * effectiveLimit ((pageQuery "9223372036854775808" "1").Get (str "limit"))
      < ((Split (str "A")).length : Int) ∧
    (GetText exampleEnv (str "1") (pageQuery "9223372036854775808" "1")
        (worldWithLyrics (str "A"))).1
      = respondJSONError 404 (Msg.lit "no more verses") := by
  decide

/-- C2: absent a storage error, with `p` and `l` the effective page and limit
and `(p-1)*l` within the `int` range, `GetText` responds 404 exactly when no
lyrics row exists for the identifier or `(p-1)*l` is at least the number of
verses of the row found, and responds 200 otherwise. -/
theorem GetText_not_found_iff (env : Env) (songID : GoString) (q : Values) (w : World)
    (p l : Int)
    (hp : p = effectivePage (q.Get (str "page")))
    (hl : l = effectiveLimit (q.Get (str "limit")))
    (hno : (p - 1) * l ≤ maxInt)
    (hlen : ∀ d ∈ w.tables.details, (d.Text.length : Int) ≤ maxInt)
    (hok : (TextListByID env songID w).1.2.2 = none) :
    1 ≤ p ∧ 1 ≤ l ∧
    ∃ n, env.intParam songID = Except.ok n ∧
      ((GetText env songID q w).1.status = some 404 ↔
        ((∀ d ∈ w.tables.details, d.SongID ≠ n) ∨
          ∃ d, w.tables.details.find? (fun d => d.SongID = n) = some d ∧
            ((Split d.Text).length : Int) ≤ (p - 1) * l)) ∧
      ((GetText env songID q w).1.status ≠ some 404 →
        (GetText env songID q w).1.status = some 200) := by
  refine ⟨hp ▸ effectivePage_pos _, hl ▸ (effectiveLimit_bounds _).1, ?_⟩
  rw [GetText_fst]
  unfold TextListByID queryRowText at hok ⊢
  simp only [World.record] at hok ⊢
  cases hf : env.fault Stmt.selectText with
  | some m => rw [hf] at hok; simp at hok
  | none =>
    rw [hf] at hok
    dsimp only at hok ⊢
    cases hi : env.intParam songID with
    | error m => rw [hi] at hok; simp at hok
    | ok n =>
      dsimp only
      refine ⟨n, rfl, ?_⟩
      cases hd : w.tables.details.find? (fun d => d.SongID = n) with
      | none =>
        have hall : ∀ d ∈ w.tables.details, d.SongID ≠ n := by
          intro d hmem
          have := List.find?_eq_none.mp hd d hmem
          simpa using this
        simp [Outcome.status, respondJSONError, RespondJSON]
        exact hall
      | some d =>
        have hmem : d ∈ w.tables.details := List.mem_of_find?_eq_some hd
        have hdn : d.SongID = n := by
          have := List.find?_some hd
          simpa using this
        have hnot : ¬ ∀ d ∈ w.tables.details, d.SongID ≠ n := by
          intro h; exact h d hmem hdn
        have hno' : (effectivePage (q.Get (str "page")) - 1) *
            effectiveLimit (q.Get (str "limit")) ≤ maxInt := by rw [← hp, ← hl]; exact hno
        dsimp only
        rw [if_neg (by decide), paginate_eq d.Text _ _ (hlen d hmem) hno', ← hp, ← hl]
        by_cases hge : ((Split d.Text).length : Int) ≤ (p - 1) * l
        · rw [if_pos hge]
          simp [hge, Outcome.status, respondJSONError, RespondJSON]
        · rw [if_neg hge]
          simp [hge, hnot, Outcome.status, RespondJSON]

/-- C2 on lyrics with three verses: page 3 with limit 2 starts at verse 4 and
is answered 404; so is a song identifier without lyrics. -/
theorem GetText_not_found_iff_witness :
    (GetText exampleEnv (str "1") (pageQuery "3" "2")
        (worldWithLyrics (str "A\n\nB\n\nC"))).1.status = some 404 ∧
    (GetText exampleEnv (str "2") (pageQuery "1" "2")
        (worldWithLyrics (str "A\n\nB\n\nC"))).1.status = some 404 := by
  obtain ⟨_, _, n, hn, h, _⟩ := GetText_not_found_iff exampleEnv (str "1") (pageQuery "3" "2")
    (worldWithLyrics (str "A\n\nB\n\nC")) 3 2 (by decide) (by decide) (by decide)
    (by decide) (by decide)
  have hn1 : n = 1 := by
    have h1 : exampleEnv.intParam (str "1") = Except.ok 1 := rfl
    rw [h1] at hn
    exact (Except.ok.inj hn).symm
  subst hn1
  have hrow : (worldWithLyrics (str "A\n\nB\n\nC")).tables.details.find?
      (fun d => d.SongID = 1) = some { ID := 1, SongID := 1, ReleaseDate := str "2006-07-16", Text := str "A\n\nB\n\nC", Link := str "http://l" } := by
    decide
  exact ⟨h.mpr (Or.inr ⟨_, hrow, by decide⟩), by decide⟩

/-! ## C3: the query `SongList` builds -/

theorem shape_cases (s : GoString) : shape s = [] ∨ shape s = [0] := by
  unfold shape; split
  · exact Or.inl rfl
  · exact Or.inr rfl

/-- The predicates, the query text and the number of parameters depend only
on which filters are empty. -/
theorem buildSongList_shape (group name releaseDate text link : GoString)
    (limit offset : Int) :
    (buildSongList group name releaseDate text link limit offset).whereClauses
      = (buildSongList (shape group) (shape name) (shape releaseDate) (shape text)
          (shape link) 0 0).whereClauses
    ∧ (buildSongList group name releaseDate text link limit offset).query
      = (buildSongList (shape group) (shape name) (shape releaseDate) (shape text)
          (shape link) 0 0).query
    ∧ (buildSongList group name releaseDate text link limit offset).params.length
      = (buildSongList (shape group) (shape name) (shape releaseDate) (shape text)
          (shape link) 0 0).params.length := by
  rcases group with _ | ⟨g, gs⟩ <;> rcases name with _ | ⟨n, ns⟩ <;>
    rcases releaseDate with _ | ⟨r, rs⟩ <;> rcases text with _ | ⟨t, ts⟩ <;>
    rcases link with _ | ⟨k, ks⟩ <;> exact ⟨rfl, rfl, rfl⟩

theorem SongList_snd (env : Env) (group name releaseDate text link : GoString)
    (limit offset : Int) (w : World) :
    (SongList env group name releaseDate text link limit offset w).2 =
      { tables := w.tables
        trace := w.trace ++
          [Event.SongList group name releaseDate text link limit offset,
           Event.dbQuery (buildSongList group name releaseDate text link limit offset).query
             (buildSongList group name releaseDate text link limit offset).params] } := by
  unfold SongList
  dsimp only [World.record]
  rcases env.query w.tables _ _ with ⟨⟨_ | _ | _⟩, m⟩ | songs <;> simp

/-- C3: the parameter list `SongList` passes to the database is the values of the non-empty
filters in the order group, name, releaseDate, text, link (group, name and
text wrapped in `%`), then the limit (25 for 0) and the offset; the k-th
predicate holds placeholder `$k` and nothing else, LIMIT holds `$(n+1)` and
OFFSET `$(n+2)` for `n` non-empty filters, so the placeholders of the query
text are exactly `1..len(params)`, each once; and limit 0 sends the same query
and parameters as limit 25. -/
theorem SongList_query_construction (group name releaseDate text link : GoString)
    (limit offset : Int) :
    let b := buildSongList group name releaseDate text link limit offset
    b.params =
        (if group = [] then [] else [Param.s (str "%" ++ group ++ str "%")])
        ++ (if name = [] then [] else [Param.s (str "%" ++ name ++ str "%")])
        ++ (if releaseDate = [] then [] else [Param.s releaseDate])
        ++ (if text = [] then [] else [Param.s (str "%" ++ text ++ str "%")])
        ++ (if link = [] then [] else [Param.s link])
        ++ [Param.i (if limit = 0 then 25 else limit), Param.i offset]
    ∧ b.whereClauses.length
        = ([group, name, releaseDate, text, link].filter (fun f => f ≠ [])).length
    ∧ b.whereClauses.map placeholders
        = (List.range b.whereClauses.length).map (fun k => [k + 1])
    ∧ b.query = songListSelect
        ++ (if b.whereClauses = [] then []
            else str " WHERE " ++ Join b.whereClauses (str " AND "))
        ++ (str "\nORDER BY\n\tsongs.name\nLIMIT\n\t$"
            ++ Sprint ((b.whereClauses.length : Int) + 1)
            ++ str "\nOFFSET\n\t$" ++ Sprint ((b.whereClauses.length : Int) + 2))
    ∧ b.params.length = b.whereClauses.length + 2
    ∧ placeholders b.query = List.range' 1 b.params.length
    ∧ buildSongList group name releaseDate text link 0 offset
        = buildSongList group name releaseDate text link 25 offset
    ∧ (∀ (env : Env) (w : World),
        (SongList env group name releaseDate text link limit offset w).2.trace
          = w.trace ++ [Event.SongList group name releaseDate text link limit offset,
              Event.dbQuery b.query b.params])
    ∧ ∀ (env : Env) (w : World),
        (SongList env group name releaseDate text link 0 offset w).1
          = (SongList env group name releaseDate text link 25 offset w).1 := by
  have h025 : buildSongList group name releaseDate text link 0 offset
      = buildSongList group name releaseDate text link 25 offset := by
    unfold buildSongList; rfl
  obtain ⟨hw, hq, hp⟩ := buildSongList_shape group name releaseDate text link limit offset
  intro b
  refine ⟨?_, ?_, ?_, ?_, ?_, ?_, h025, ?_, ?_⟩
  · rcases group with _ | ⟨g, gs⟩ <;> rcases name with _ | ⟨n, ns⟩ <;>
      rcases releaseDate with _ | ⟨r, rs⟩ <;> rcases text with _ | ⟨t, ts⟩ <;>
      rcases link with _ | ⟨k, ks⟩ <;> rfl
  · rcases group with _ | ⟨g, gs⟩ <;> rcases name with _ | ⟨n, ns⟩ <;>
      rcases releaseDate with _ | ⟨r, rs⟩ <;> rcases text with _ | ⟨t, ts⟩ <;>
      rcases link with _ | ⟨k, ks⟩ <;> rfl
  · show List.map placeholders
        (buildSongList group name releaseDate text link limit offset).whereClauses = _
    rw [hw]
    rcases shape_cases group with h1 | h1 <;> rcases shape_cases name with h2 | h2 <;>
      rcases shape_cases releaseDate with h3 | h3 <;> rcases shape_cases text with h4 | h4 <;>
      rcases shape_cases link with h5 | h5 <;> rw [h1, h2, h3, h4, h5] <;> decide
  · show (buildSongList group name releaseDate text link limit offset).query = _
    rw [hq, hw]
    rcases shape_cases group with h1 | h1 <;> rcases shape_cases name with h2 | h2 <;>
      rcases shape_cases releaseDate with h3 | h3 <;> rcases shape_cases text with h4 | h4 <;>
      rcases shape_cases link with h5 | h5 <;> rw [h1, h2, h3, h4, h5] <;> decide
  · show (buildSongList group name releaseDate text link limit offset).params.length = _
    rw [hp, hw]
    rcases shape_cases group with h1 | h1 <;> rcases shape_cases name with h2 | h2 <;>
      rcases shape_cases releaseDate with h3 | h3 <;> rcases shape_cases text with h4 | h4 <;>
      rcases shape_cases link with h5 | h5 <;> rw [h1, h2, h3, h4, h5] <;> decide
  · show placeholders (buildSongList group name releaseDate text link limit offset).query = _
    rw [hq, hp]
    rcases shape_cases group with h1 | h1 <;> rcases shape_cases name with h2 | h2 <;>
      rcases shape_cases releaseDate with h3 | h3 <;> rcases shape_cases text with h4 | h4 <;>
      rcases shape_cases link with h5 | h5 <;> rw [h1, h2, h3, h4, h5] <;> decide
  · intro env w
    rw [SongList_snd]
  · intro env w
    unfold SongList
    rw [h025]
    dsimp only [World.record]
    rcases env.query w.tables _ _ with ⟨⟨_ | _ | _⟩, m⟩ | songs <;> rfl

/-! ## C4: what the query of `SongList` selects -/

/-- C4 fails on the code.  With the group filter `mus`, `SongList` sends the
predicate `songs.group_id = (SELECT id FROM groups WHERE name ILIKE $1)` with
parameter `%mus%`.  When the groups `Muse` and `Museum` exist the subquery
returns two rows and the engine answers with an error, although the song
`Hysteria` belongs to a group whose name contains the filter.  Besides, the
filter is put into the pattern as it is: the name filter `_` matches
`Hysteria`, which does not contain it. -/
theorem SongList_group_filter_fails :
    (buildSongList (str "mus") [] [] [] [] 0 0).whereClauses
      = [str "songs.group_id = (SELECT id FROM groups WHERE name ILIKE $1)"]
    ∧ (buildSongList (str "mus") [] [] [] [] 0 0).params
      = [Param.s (str "%mus%"), Param.i 25, Param.i 0]
    ∧ containsFold (str "Muse") (str "mus") = true
    ∧ containsFold (str "Museum") (str "mus") = true
    ∧ groupPredicate twoGroupTables (str "%mus%")
        { ID := 1, Name := str "Hysteria", GroupID := 1 }
      = Except.error (str "more than one row returned by a subquery used as an expression")
    ∧ (buildSongList [] (str "_") [] [] [] 0 0).whereClauses = [str "songs.name ILIKE $1"]
    ∧ (buildSongList [] (str "_") [] [] [] 0 0).params
      = [Param.s (str "%_%"), Param.i 25, Param.i 0]
    ∧ ilike (str "%_%") (str "Hysteria") = true
    ∧ containsFold (str "Hysteria") (str "_") = false := by
  refine ⟨by decide, by decide, by decide, by decide, rfl, by decide, by decide, by decide,
    by decide⟩

/-! ## C5: validation in `ListSongs` -/

theorem Values.at_cons (k key : GoString) (vs : List GoString) (rest : Values) :
    Values.at ((k, vs) :: rest) key = if k = key then vs else Values.at rest key := rfl

theorem Values.at_of_not_mem (q : Values) (key : GoString) (h : key ∉ q.map Prod.fst) :
    q.at key = [] := by
  induction q with
  | nil => rfl
  | cons e rest ih =>
    obtain ⟨k, vs⟩ := e
    simp only [List.map_cons, List.mem_cons, not_or] at h
    rw [Values.at_cons, if_neg (fun hk => h.1 hk.symm)]
    exact ih h.2

theorem Values.at_of_mem (q : Values) (hnd : (q.map Prod.fst).Nodup) (key : GoString)
    (vs : List GoString) (h : (key, vs) ∈ q) : q.at key = vs := by
  induction q with
  | nil => simp at h
  | cons e rest ih =>
    obtain ⟨k, ws⟩ := e
    simp only [List.map_cons, List.nodup_cons] at hnd
    rw [Values.at_cons]
    rcases List.mem_cons.mp h with heq | hmem
    · simp only [Prod.mk.injEq] at heq
      rw [if_pos heq.1.symm, heq.2]
    · have hne : k ≠ key := by
        intro hk
        apply hnd.1
        rw [hk]
        exact List.mem_map.mpr ⟨(key, vs), hmem, rfl⟩
      rw [if_neg hne]
      exact ih hnd.2 hmem

theorem Values.at_perm (q q' : Values) (hnd : (q.map Prod.fst).Nodup) (hp : q'.Perm q)
    (key : GoString) : q'.at key = q.at key := by
  have hnd' : (q'.map Prod.fst).Nodup := (hp.map Prod.fst).nodup_iff.mpr hnd
  by_cases hk : key ∈ q.map Prod.fst
  · obtain ⟨⟨k, vs⟩, hmem, hkey⟩ := List.mem_map.mp hk
    simp only at hkey
    subst hkey
    rw [Values.at_of_mem q hnd k vs hmem, Values.at_of_mem q' hnd' k vs (hp.mem_iff.mpr hmem)]
  · have hk' : key ∉ q'.map Prod.fst := fun h => hk ((hp.map Prod.fst).mem_iff.mp h)
    rw [Values.at_of_not_mem q key hk, Values.at_of_not_mem q' key hk']

theorem Values.Get_perm (q q' : Values) (hnd : (q.map Prod.fst).Nodup) (hp : q'.Perm q)
    (key : GoString) : q'.Get key = q.Get key := by
  unfold Values.Get; rw [Values.at_perm q q' hnd hp key]

theorem Values.WellFormed_perm (q q' : Values) (hq : q.WellFormed) (hp : q'.Perm q) :
    q'.WellFormed :=
  ⟨(hp.map Prod.fst).nodup_iff.mpr hq.1, fun e he => hq.2 e (hp.mem_iff.mp he)⟩

theorem Values.Rejected_perm (q q' : Values) (hq : q.WellFormed) (hp : q'.Perm q) :
    q'.Rejected ↔ q.Rejected := by
  unfold Values.Rejected
  rw [Values.at_perm q q' hq.1 hp, Values.at_perm q q' hq.1 hp,
    Values.Get_perm q q' hq.1 hp, Values.Get_perm q q' hq.1 hp]
  constructor
  · rintro (⟨e, he, h⟩ | h | h)
    · exact Or.inl ⟨e, hp.mem_iff.mp he, h⟩
    · exact Or.inr (Or.inl h)
    · exact Or.inr (Or.inr h)
  · rintro (⟨e, he, h⟩ | h | h)
    · exact Or.inl ⟨e, hp.mem_iff.mpr he, h⟩
    · exact Or.inr (Or.inl h)
    · exact Or.inr (Or.inr h)

theorem Values.listVars_perm (q q' : Values) (hq : q.WellFormed) (hp : q'.Perm q)
    (v : ListVars) : q'.listVars v = q.listVars v := by
  unfold Values.listVars
  simp only [Values.at_perm q q' hq.1 hp, Values.Get_perm q q' hq.1 hp]

theorem Values.at_cons_of_ne_nil (k key : GoString) (vs : List GoString) (rest : Values)
    (hk : k ∉ rest.map Prod.fst) (h : rest.at key ≠ []) :
    Values.at ((k, vs) :: rest) key = rest.at key := by
  rw [Values.at_cons, if_neg]
  intro hkk
  subst hkk
  exact h (Values.at_of_not_mem rest k hk)

theorem Values.Rejected_cons (k : GoString) (vs : List GoString) (rest : Values)
    (hk : k ∉ rest.map Prod.fst) (h : rest.Rejected) : Values.Rejected ((k, vs) :: rest) := by
  unfold Values.Rejected Values.Get at h ⊢
  rcases h with ⟨e, he, h⟩ | ⟨h1, h2⟩ | ⟨h1, h2⟩
  · exact Or.inl ⟨e, List.mem_cons_of_mem _ he, h⟩
  · right; left
    rw [Values.at_cons_of_ne_nil k _ vs rest hk h1]
    exact ⟨h1, h2⟩
  · right; right
    rw [Values.at_cons_of_ne_nil k _ vs rest hk h1]
    exact ⟨h1, h2⟩

theorem Values.WellFormed_cons (k : GoString) (vs : List GoString) (rest : Values)
    (h : Values.WellFormed ((k, vs) :: rest)) :
    k ∉ rest.map Prod.fst ∧ vs ≠ [] ∧ rest.WellFormed := by
  obtain ⟨h1, h2⟩ := h
  simp only [List.map_cons, List.nodup_cons] at h1
  exact ⟨h1.1, h2 (k, vs) (List.mem_cons_self _ _), h1.2,
    fun e he => h2 e (List.mem_cons_of_mem _ he)⟩

theorem listLoop_ok (q : Values) : ∀ (v : ListVars), q.WellFormed → ¬ q.Rejected →
    listLoop q v = Except.ok (q.listVars v) := by
  induction q with
  | nil => intro v _ _; rfl
  | cons e rest ih =>
    intro v hq hr
    obtain ⟨k, vals⟩ := e
    obtain ⟨hk, hvals, hq'⟩ := Values.WellFormed_cons k vals rest hq
    obtain ⟨x, xs, rfl⟩ := List.exists_cons_of_ne_nil hvals
    have hr' : ¬ Values.Rejected rest := fun h => hr (Values.Rejected_cons k _ rest hk h)
    have hrk : Values.at rest k = [] := Values.at_of_not_mem rest k hk
    have hallowed : k ∈ allowedKeys := by
      by_contra h
      exact hr (Or.inl ⟨(k, x :: xs), List.mem_cons_self _ _, h⟩)
    have hlim : k = str "limit" → (Atoi x).2 = none := by
      intro h
      by_contra hne
      apply hr
      right; left
      subst h
      simp [Values.at_cons, Values.Get, hne]
    have hoff : k = str "offset" → (Atoi x).2 = none := by
      intro h
      by_contra hne
      apply hr
      right; right
      subst h
      simp [Values.at_cons, Values.Get, hne]
    simp only [allowedKeys, List.mem_cons, List.mem_singleton, List.not_mem_nil, or_false]
      at hallowed
    rcases hallowed with h | h | h | h | h | h | h
    · subst h
      have ha := hlim rfl
      rcases hA : Atoi x with ⟨n, e⟩
      rw [hA] at ha; simp only at ha; subst ha
      unfold listLoop
      simp only [first, List.head?_cons, if_true, hA]
      rw [ih _ hq' hr']
      simp +decide [Values.listVars, Values.at_cons, Values.Get, hrk, hA]
    · subst h
      have ha := hoff rfl
      rcases hA : Atoi x with ⟨n, e⟩
      rw [hA] at ha; simp only at ha; subst ha
      unfold listLoop
      simp +decide only [first, List.head?_cons, if_true, if_false, hA]
      rw [ih _ hq' hr']
      simp +decide [Values.listVars, Values.at_cons, Values.Get, hrk, hA]
    all_goals
      subst h
      unfold listLoop
      simp +decide only [first, List.head?_cons, if_true, if_false]
      rw [ih _ hq' hr']
      simp +decide [Values.listVars, Values.at_cons, Values.Get, hrk]

theorem listLoop_rejected (q : Values) : ∀ (v : ListVars), q.WellFormed → q.Rejected →
    ∃ m, listLoop q v = Except.error (respondJSONError 400 m) := by
  induction q with
  | nil =>
    intro v _ hr
    exfalso
    rcases hr with ⟨e, he, _⟩ | ⟨h, _⟩ | ⟨h, _⟩
    · simp at he
    · exact h rfl
    · exact h rfl
  | cons e rest ih =>
    intro v hq hr
    obtain ⟨k, vals⟩ := e
    obtain ⟨hk, hvals, hq'⟩ := Values.WellFormed_cons k vals rest hq
    obtain ⟨x, xs, rfl⟩ := List.exists_cons_of_ne_nil hvals
    have hrk : Values.at rest k = [] := Values.at_of_not_mem rest k hk
    by_cases hallowed : k ∈ allowedKeys
    · -- the head is accepted unless it is a malformed limit or offset
      have hrest : (k = str "limit" → (Atoi x).2 = none) →
          (k = str "offset" → (Atoi x).2 = none) → Values.Rejected rest := by
        intro hlim hoff
        rcases hr with ⟨e, he, h⟩ | ⟨h1, h2⟩ | ⟨h1, h2⟩
        · rcases List.mem_cons.mp he with heq | hmem
          · subst heq; exact absurd hallowed h
          · exact Or.inl ⟨e, hmem, h⟩
        · right; left
          by_cases hkl : k = str "limit"
          · exfalso
            subst hkl
            simp only [Values.Get, Values.at_cons, if_true] at h2
            exact h2 (hlim rfl)
          · simp only [Values.Get, Values.at_cons, if_neg hkl] at h1 h2
            exact ⟨h1, h2⟩
        · right; right
          by_cases hkl : k = str "offset"
          · exfalso
            subst hkl
            simp only [Values.Get, Values.at_cons, if_true] at h2
            exact h2 (hoff rfl)
          · simp only [Values.Get, Values.at_cons, if_neg hkl] at h1 h2
            exact ⟨h1, h2⟩
      simp only [allowedKeys, List.mem_cons, List.mem_singleton, List.not_mem_nil, or_false]
        at hallowed
      rcases hallowed with h | h | h | h | h | h | h
      · subst h
        rcases hA : Atoi x with ⟨n, e⟩
        cases e with
        | some err =>
          refine ⟨Msg.fmtErr "invalid limit format: %v" err, ?_⟩
          unfold listLoop
          simp only [first, List.head?_cons, if_true, hA]
        | none =>
          have hr' := hrest (fun _ => by rw [hA]) (fun h => absurd h (by decide))
          obtain ⟨m, hm⟩ := ih { v with limit := n } hq' hr'
          refine ⟨m, ?_⟩
          unfold listLoop
          simp only [first, List.head?_cons, if_true, hA]
          exact hm
      · subst h
        rcases hA : Atoi x with ⟨n, e⟩
        cases e with
        | some err =>
          refine ⟨Msg.fmtErr "invalid offset format: %v" err, ?_⟩
          unfold listLoop
          simp +decide only [first, List.head?_cons, if_true, if_false, hA]
        | none =>
          have hr' := hrest (fun h => absurd h (by decide)) (fun _ => by rw [hA])
          obtain ⟨m, hm⟩ := ih { v with offset := n } hq' hr'
          refine ⟨m, ?_⟩
          unfold listLoop
          simp +decide only [first, List.head?_cons, if_true, if_false, hA]
          exact hm
      all_goals
        subst h
        have hr' := hrest (fun h => absurd h (by decide)) (fun h => absurd h (by decide))
        unfold listLoop
        simp +decide only [first, List.head?_cons, if_true, if_false]
        exact ih _ hq' hr'
    · refine ⟨Msg.fmtStr "unrecognized query parameter: %v" k, ?_⟩
      simp only [allowedKeys, List.mem_cons, List.mem_singleton, List.not_mem_nil, or_false,
        not_or] at hallowed
      obtain ⟨h1, h2, h3, h4, h5, h6, h7⟩ := hallowed
      unfold listLoop
      simp only [if_neg h1, if_neg h2, if_neg h3, if_neg h4, if_neg h5, if_neg h6, if_neg h7]
theorem Values.listVars_default (q : Values) :
    q.listVars {} =
      { limit := if q.at (str "limit") = [] then 0 else (Atoi (q.Get (str "limit"))).1
        offset := if q.at (str "offset") = [] then 0 else (Atoi (q.Get (str "offset"))).1
        group := q.Get (str "group")
        name := q.Get (str "name")
        releaseDate := q.Get (str "releaseDate")
        text := q.Get (str "text")
        link := q.Get (str "link") } := by
  have key : ∀ k, (if q.at k = [] then ([] : GoString) else q.Get k) = q.Get k := by
    intro k
    split
    · rename_i h; unfold Values.Get; rw [h]
    · rfl
  unfold Values.listVars
  simp only [key]

/-- The handler `ListSongs` on a query the loop accepts. -/
theorem ListSongs_accepted (env : Env) (q : Values) (w : World) (hq : q.WellFormed)
    (hr : ¬ q.Rejected) :
    ListSongs env q w =
      match SongList env (q.listVars {}).group (q.listVars {}).name (q.listVars {}).releaseDate
        (q.listVars {}).text (q.listVars {}).link (q.listVars {}).limit (q.listVars {}).offset
        w with
      | ((_, some err), w1) =>
        (respondJSONError 500 (Msg.fmtErr "failed to select song from database: %v" err), w1)
      | ((songs, none), w1) => (RespondJSON 200 (Payload.json { Songs := some songs }), w1) := by
  unfold ListSongs
  rw [listLoop_ok q {} hq hr]

theorem ListSongs_accepted_status (env : Env) (q : Values) (w : World) (hq : q.WellFormed)
    (hr : ¬ q.Rejected) :
    (ListSongs env q w).1.status = some 200 ∨ (ListSongs env q w).1.status = some 500 := by
  rw [ListSongs_accepted env q w hq hr]
  rcases SongList env _ _ _ _ _ _ _ w with ⟨⟨songs, _ | err⟩, w1⟩
  · left; rfl
  · right; rfl

/-- C5: for a query as `url.ParseQuery` builds it, `ListSongs` responds 400
exactly when a key is outside the allow-list or the first value of a present
`limit` or `offset` key is rejected by `Atoi`; it then leaves the world
untouched (no storage call), and whatever the order in which the keys are
visited the status is the same.  Otherwise it calls `SongList` exactly once,
with the first value of each present key and the empty string or 0 for an
absent one, and responds 200 or 500. -/
theorem ListSongs_validation (env : Env) (q : Values) (w : World) (hq : q.WellFormed) :
    ((ListSongs env q w).1.status = some 400 ↔ q.Rejected)
    ∧ (q.Rejected → (ListSongs env q w).2 = w)
    ∧ (¬ q.Rejected →
        (ListSongs env q w).2.trace = w.trace ++
          [Event.SongList (q.Get (str "group")) (q.Get (str "name"))
              (q.Get (str "releaseDate")) (q.Get (str "text")) (q.Get (str "link"))
              (if q.at (str "limit") = [] then 0 else (Atoi (q.Get (str "limit"))).1)
              (if q.at (str "offset") = [] then 0 else (Atoi (q.Get (str "offset"))).1),
           Event.dbQuery
              (buildSongList (q.Get (str "group")) (q.Get (str "name"))
                (q.Get (str "releaseDate")) (q.Get (str "text")) (q.Get (str "link"))
                (if q.at (str "limit") = [] then 0 else (Atoi (q.Get (str "limit"))).1)
                (if q.at (str "offset") = [] then 0
                  else (Atoi (q.Get (str "offset"))).1)).query
              (buildSongList (q.Get (str "group")) (q.Get (str "name"))
                (q.Get (str "releaseDate")) (q.Get (str "text")) (q.Get (str "link"))
                (if q.at (str "limit") = [] then 0 else (Atoi (q.Get (str "limit"))).1)
                (if q.at (str "offset") = [] then 0
                  else (Atoi (q.Get (str "offset"))).1)).params]
        ∧ ((ListSongs env q w).1.status = some 200 ∨ (ListSongs env q w).1.status = some 500))
    ∧ (∀ q' : Values, q'.Perm q → (ListSongs env q' w).1.status = (ListSongs env q w).1.status) := by
  have h400 : q.Rejected → (ListSongs env q w).1.status = some 400 ∧ (ListSongs env q w).2 = w := by
    intro hr
    obtain ⟨m, hm⟩ := listLoop_rejected q {} hq hr
    unfold ListSongs
    rw [hm]
    exact ⟨rfl, rfl⟩
  refine ⟨⟨?_, fun hr => (h400 hr).1⟩, fun hr => (h400 hr).2, ?_, ?_⟩
  · intro hs
    by_contra hr
    rcases ListSongs_accepted_status env q w hq hr with h | h <;> rw [h] at hs <;>
      simp at hs
  · intro hr
    refine ⟨?_, ListSongs_accepted_status env q w hq hr⟩
    have hsnd : (ListSongs env q w).2 = (SongList env (q.listVars {}).group
        (q.listVars {}).name (q.listVars {}).releaseDate (q.listVars {}).text
        (q.listVars {}).link (q.listVars {}).limit (q.listVars {}).offset w).2 := by
      rw [ListSongs_accepted env q w hq hr]
      rcases SongList env _ _ _ _ _ _ _ w with ⟨⟨songs, _ | err⟩, w1⟩ <;> rfl
    rw [hsnd, SongList_snd, Values.listVars_default]
  · intro q' hp
    have hq' := Values.WellFormed_perm q q' hq hp
    by_cases hr : q.Rejected
    · have hr' := (Values.Rejected_perm q q' hq hp).mpr hr
      obtain ⟨m, hm⟩ := listLoop_rejected q {} hq hr
      obtain ⟨m', hm'⟩ := listLoop_rejected q' {} hq' hr'
      unfold ListSongs
      rw [hm, hm']
      rfl
    · have hr' : ¬ q'.Rejected := fun h => hr ((Values.Rejected_perm q q' hq hp).mp h)
      rw [ListSongs_accepted env q w hq hr, ListSongs_accepted env q' w hq' hr',
        Values.listVars_perm q q' hq hp]

/-- C5 on the query `foo=bar&limit=5`: the answer is 400, nothing is sent to
the storage layer, and visiting `limit` first changes nothing. -/
theorem ListSongs_validation_witness :
    (ListSongs exampleEnv [(str "foo", [str "bar"]), (str "limit", [str "5"])]
        (worldWithLyrics [])).1.status = some 400
    ∧ (ListSongs exampleEnv [(str "foo", [str "bar"]), (str "limit", [str "5"])]
        (worldWithLyrics [])).2 = worldWithLyrics []
    ∧ (ListSongs exampleEnv [(str "limit", [str "5"]), (str "foo", [str "bar"])]
        (worldWithLyrics [])).1.status = some 400 := by
  have hwf : Values.WellFormed [(str "foo", [str "bar"]), (str "limit", [str "5"])] :=
    ⟨by decide, by decide⟩
  have hrej : Values.Rejected [(str "foo", [str "bar"]), (str "limit", [str "5"])] :=
    Or.inl ⟨(str "foo", [str "bar"]), by decide, by decide⟩
  obtain ⟨h1, h2, _, h4⟩ := ListSongs_validation exampleEnv
    [(str "foo", [str "bar"]), (str "limit", [str "5"])] (worldWithLyrics []) hwf
  refine ⟨h1.mpr hrej, h2 hrej, ?_⟩
  rw [h4 [(str "limit", [str "5"]), (str "foo", [str "bar"])] (List.Perm.swap _ _ _)]
  exact h1.mpr hrej

/-! ## C6, C9: `EditSong` -/

theorem GetSongByID_found (env : Env) (songID : GoString) (w : World) (n : Int) (song : Song)
    (hf : env.fault Stmt.selectSong = none) (hn : env.intParam songID = Except.ok n)
    (hs : w.tables.songs.find? (fun s => s.ID = n) = some song) :
    GetSongByID env songID w = ((some song, none), w.record (Event.GetSongByID songID)) := by
  unfold GetSongByID
  simp only [hf, hn, World.record, hs]

theorem GetSongDetailsByID_found (env : Env) (songID : GoString) (w : World) (n : Int)
    (d : SongDetails)
    (hf : env.fault Stmt.selectDetails = none) (hn : env.intParam songID = Except.ok n)
    (hs : w.tables.details.find? (fun d => d.SongID = n) = some d) :
    GetSongDetailsByID env songID w
      = ((some d, none), w.record (Event.GetSongDetailsByID songID)) := by
  unfold GetSongDetailsByID
  simp only [hf, hn, World.record, hs]

theorem UpdateSong_trace (env : Env) (song : Option Song) (songDetails : Option SongDetails)
    (w : World) :
    ∃ rest, (UpdateSong env song songDetails w).2.trace
        = w.trace ++ [Event.UpdateSong song songDetails] ++ rest
      ∧ ∀ e ∈ rest, e = Event.txBegin ∨ e = Event.txCommit ∨ e = Event.txRollback := by
  unfold UpdateSong
  dsimp only
  cases env.fault Stmt.begin with
  | some m => exact ⟨[], by simp [World.record], by simp⟩
  | none =>
    dsimp only
    cases song with
    | none => exact ⟨[Event.txBegin, Event.txRollback], by simp [World.record, txRollback], by simp⟩
    | some s =>
      dsimp only
      cases env.fault Stmt.updateSong with
      | some m =>
        exact ⟨[Event.txBegin, Event.txRollback], by simp [World.record, txRollback], by simp⟩
      | none =>
        dsimp only
        cases songDetails with
        | none =>
          exact ⟨[Event.txBegin, Event.txRollback], by simp [World.record, txRollback], by simp⟩
        | some d =>
          dsimp only
          cases env.fault Stmt.updateDetails with
          | some m =>
            exact ⟨[Event.txBegin, Event.txRollback], by simp [World.record, txRollback],
              by simp⟩
          | none =>
            refine ⟨[Event.txBegin, Event.txCommit], ?_, by simp⟩
            dsimp only [txCommit]
            cases env.fault Stmt.commit <;> simp [World.record]

theorem editSongFields_some (song : Song) (payload : EditSongPayload) :
    editSongFields (some song) payload = Except.ok (some (mergedSong song payload)) := by
  unfold editSongFields mergedSong assign
  by_cases h1 : payload.Song.Name = [] <;> by_cases h2 : payload.Song.GroupID = 0 <;>
    simp [h1, h2, bind, Except.bind, pure, Except.pure]

theorem editDetailsFields_some (d : SongDetails) (payload : EditSongPayload) :
    editDetailsFields (some d) payload = Except.ok (some (mergedDetails d payload)) := by
  unfold editDetailsFields mergedDetails assign
  by_cases h1 : payload.SongDetails.ReleaseDate = [] <;>
    by_cases h2 : payload.SongDetails.Text = [] <;>
    by_cases h3 : payload.SongDetails.Link = [] <;>
    simp [h1, h2, h3, bind, Except.bind, pure, Except.pure]

/-- C6: when the song and its details exist, `EditSong` hands to `UpdateSong`,
and returns in the 200 response, records whose name, group_id, release_date,
text and link are the payload's values where these are non-empty (non-zero
for group_id) and the stored values elsewhere, and whose identifiers (song id,
details id, details song_id) are the stored ones. -/
theorem EditSong_merge (env : Env) (songID : GoString) (payload : EditSongPayload)
    (w : World) (n : Int) (song : Song) (details : SongDetails)
    (hfs : env.fault Stmt.selectSong = none) (hfd : env.fault Stmt.selectDetails = none)
    (hn : env.intParam songID = Except.ok n)
    (hs : w.tables.songs.find? (fun s => s.ID = n) = some song)
    (hd : w.tables.details.find? (fun d => d.SongID = n) = some details) :
    EditSong env songID (Except.ok payload) w =
      (match UpdateSong env (some (mergedSong song payload))
          (some (mergedDetails details payload))
          ((w.record (Event.GetSongByID songID)).record (Event.GetSongDetailsByID songID)) with
        | (Except.error f, w3) => (Outcome.panic f, w3)
        | (Except.ok (some err), w3) =>
          (respondJSONError 500 (Msg.fmtErr "failed to update song: %v" err), w3)
        | (Except.ok none, w3) =>
          (RespondJSON 200 (Payload.edited (some (mergedSong song payload))
            (some (mergedDetails details payload))), w3))
    ∧ (∀ p, (EditSong env songID (Except.ok payload) w).1 = Outcome.response 200 p →
        p = Payload.edited (some (mergedSong song payload))
              (some (mergedDetails details payload)))
    ∧ (∃ rest, (EditSong env songID (Except.ok payload) w).2.trace
          = w.trace ++ [Event.GetSongByID songID, Event.GetSongDetailsByID songID,
              Event.UpdateSong (some (mergedSong song payload))
                (some (mergedDetails details payload))] ++ rest
        ∧ ∀ e ∈ rest, e = Event.txBegin ∨ e = Event.txCommit ∨ e = Event.txRollback) := by
  have hmain : EditSong env songID (Except.ok payload) w =
      (match UpdateSong env (some (mergedSong song payload))
          (some (mergedDetails details payload))
          ((w.record (Event.GetSongByID songID)).record (Event.GetSongDetailsByID songID)) with
        | (Except.error f, w3) => (Outcome.panic f, w3)
        | (Except.ok (some err), w3) =>
          (respondJSONError 500 (Msg.fmtErr "failed to update song: %v" err), w3)
        | (Except.ok none, w3) =>
          (RespondJSON 200 (Payload.edited (some (mergedSong song payload))
            (some (mergedDetails details payload))), w3)) := by
    unfold EditSong
    rw [GetSongByID_found env songID w n song hfs hn hs]
    dsimp only
    rw [editSongFields_some]
    dsimp only
    rw [GetSongDetailsByID_found env songID (w.record (Event.GetSongByID songID)) n details
      hfd hn hd]
    simp only [editDetailsFields_some]
  refine ⟨hmain, ?_, ?_⟩
  · intro p hp
    rw [hmain] at hp
    generalize UpdateSong env _ _ _ = r at hp
    rcases r with ⟨_ | _ | err, w3⟩
    · simp at hp
    · simp only [RespondJSON, Outcome.response.injEq, true_and] at hp
      exact hp.symm
    · simp [respondJSONError, RespondJSON] at hp
  · obtain ⟨rest, h1, h2⟩ := UpdateSong_trace env (some (mergedSong song payload))
      (some (mergedDetails details payload))
      ((w.record (Event.GetSongByID songID)).record (Event.GetSongDetailsByID songID))
    refine ⟨rest, ?_, h2⟩
    have hsnd : (EditSong env songID (Except.ok payload) w).2 =
        (UpdateSong env (some (mergedSong song payload))
          (some (mergedDetails details payload))
          ((w.record (Event.GetSongByID songID)).record
            (Event.GetSongDetailsByID songID))).2 := by
      rw [hmain]
      generalize UpdateSong env _ _ _ = r
      rcases r with ⟨_ | _ | err, w3⟩ <;> rfl
    rw [hsnd, h1]
    simp [World.record]

/-- C6 on the body `{"song":{"name":"X"}}`: only the name changes, group_id
and every field of the details stay as stored, in the response and in the
records handed to `UpdateSong`. -/
theorem EditSong_merge_witness :
    EditSong exampleEnv (str "1") (Except.ok namePayload) (worldWithLyrics (str "A"))
      = (Outcome.response 200
          (Payload.edited (some { ID := 1, Name := str "X", GroupID := 1 })
            (some { ID := 1, SongID := 1, ReleaseDate := str "2006-07-16", Text := str "A",
                    Link := str "http://l" })),
         { tables :=
            { groups := [{ id := 1, name := str "Muse" }]
              songs := [{ ID := 1, Name := str "X", GroupID := 1 }]
              details := [{ ID := 1, SongID := 1, ReleaseDate := str "2006-07-16",
                            Text := str "A", Link := str "http://l" }] }
           trace := [Event.GetSongByID (str "1"), Event.GetSongDetailsByID (str "1"),
             Event.UpdateSong (some { ID := 1, Name := str "X", GroupID := 1 })
               (some { ID := 1, SongID := 1, ReleaseDate := str "2006-07-16", Text := str "A",
                       Link := str "http://l" }),
             Event.txBegin, Event.txCommit] }) :=
  (EditSong_merge exampleEnv (str "1") namePayload (worldWithLyrics (str "A")) 1
    { ID := 1, Name := str "Song", GroupID := 1 }
    { ID := 1, SongID := 1, ReleaseDate := str "2006-07-16", Text := str "A",
      Link := str "http://l" }
    rfl rfl rfl (by decide) (by decide)).1.trans (by decide)

/-- C9 fails on the code: for a song that does not exist `GetSongByID` returns
a nil pointer without error and `EditSong` never answers 404.  With the body
`{"song":{"name":"X"}}` the assignment through the nil pointer panics; with
the body `{}` the nil pointers reach `UpdateSong`, which panics after
`Begin` and rolls back.  Whenever `GetSongByID` finds no song, the status is
not 404. -/
theorem EditSong_missing_song_no_404 :
    (GetSongByID exampleEnv (str "999") (worldWithLyrics (str "A"))).1 = (none, none)
    ∧ EditSong exampleEnv (str "999") (Except.ok namePayload) (worldWithLyrics (str "A"))
        = (Outcome.panic Fault.nilDeref,
           { tables := (worldWithLyrics (str "A")).tables
             trace := [Event.GetSongByID (str "999")] })
    ∧ EditSong exampleEnv (str "999") (Except.ok emptyPayload) (worldWithLyrics (str "A"))
        = (Outcome.panic Fault.nilDeref,
           { tables := (worldWithLyrics (str "A")).tables
             trace := [Event.GetSongByID (str "999"), Event.GetSongDetailsByID (str "999"),
               Event.UpdateSong none none, Event.txBegin, Event.txRollback] })
    ∧ ∀ (env : Env) (songID : GoString) (body : Except GoString EditSongPayload) (w : World),
        (GetSongByID env songID w).1 = (none, none) →
        (EditSong env songID body w).1.status ≠ some 404 := by
  refine ⟨by decide, by decide, by decide, ?_⟩
  intro env songID body w h
  unfold EditSong
  rcases hG : GetSongByID env songID w with ⟨⟨song, e⟩, w1⟩
  rw [hG] at h
  simp only [Prod.mk.injEq] at h
  obtain ⟨h1, h2⟩ := h
  subst h1 h2
  dsimp only
  cases body with
  | error m => simp [Outcome.status, respondJSONError, RespondJSON]
  | ok payload =>
    dsimp only
    cases editSongFields none payload with
    | error f => simp [Outcome.status]
    | ok song =>
      dsimp only
      rcases GetSongDetailsByID env songID w1 with ⟨⟨d, _ | err⟩, w2⟩
      · dsimp only
        cases editDetailsFields d payload with
        | error f => simp [Outcome.status]
        | ok d' =>
          dsimp only
          rcases UpdateSong env song d' w2 with ⟨_ | _ | err, w3⟩ <;>
            simp [Outcome.status, respondJSONError, RespondJSON]
      · simp [Outcome.status, respondJSONError, RespondJSON]

/-! ## C7, C8: `NewSong` -/

/-- C7: for a decoded body whose group or song name is empty, `NewSong`
responds 400 and leaves the world as it was: nothing is logged, so neither
the metadata service nor `GetGroupID`, `NewGroup` or `CreateSongWithDetails`
is called, and no table changes. -/
theorem NewSong_required_fields (env : Env) (payload : NewSongPayload) (w : World)
    (h : payload.Group = [] ∨ payload.Song = []) :
    (NewSong env (Except.ok payload) w).1.status = some 400
    ∧ (NewSong env (Except.ok payload) w).2 = w
    ∧ ((NewSong env (Except.ok payload) w).1
          = respondJSONError 400 (Msg.lit "no group name")
        ∨ (NewSong env (Except.ok payload) w).1
          = respondJSONError 400 (Msg.lit "no song name")) := by
  unfold NewSong
  dsimp only
  by_cases hg : payload.Group = []
  · rw [if_pos hg]
    exact ⟨rfl, rfl, Or.inl rfl⟩
  · rw [if_neg hg]
    have hs : payload.Song = [] := h.resolve_left hg
    rw [if_pos hs]
    exact ⟨rfl, rfl, Or.inr rfl⟩

/-- C7 on a body with an empty group and on one with an empty song name. -/
theorem NewSong_required_fields_witness :
    NewSong exampleEnv (Except.ok { Group := [], Song := str "Hysteria" })
        (worldWithLyrics (str "A"))
      = (respondJSONError 400 (Msg.lit "no group name"), worldWithLyrics (str "A"))
    ∧ (NewSong exampleEnv (Except.ok { Group := str "Muse", Song := [] })
        (worldWithLyrics (str "A"))).2 = worldWithLyrics (str "A") :=
  ⟨by
      have h := NewSong_required_fields exampleEnv { Group := [], Song := str "Hysteria" }
        (worldWithLyrics (str "A")) (Or.inl rfl)
      exact Prod.ext (by decide) h.2.1,
   (NewSong_required_fields exampleEnv { Group := str "Muse", Song := [] }
      (worldWithLyrics (str "A")) (Or.inr rfl)).2.1⟩

/-- C8 fails on the code: `CreateSongWithDetails` takes the song by value and
keeps the generated identifier to itself, so the 201 response carries id 0.
Here the engine generates 7 for the inserted row and the response says 0; and
whatever the surroundings, a 201 response has id 0, the payload's song name
and the group id that was resolved or created. -/
theorem NewSong_response_id_zero :
    exampleEnv.newID Stmt.insertSong = 7
    ∧ (NewSong exampleEnv (Except.ok { Group := str "Muse", Song := str "Hysteria" })
        (worldWithLyrics (str "A"))).1
      = Outcome.response 201 (Payload.song { ID := 0, Name := str "Hysteria", GroupID := 1 })
    ∧ (NewSong exampleEnv (Except.ok { Group := str "Muse", Song := str "Hysteria" })
        (worldWithLyrics (str "A"))).2.tables.songs
      = [{ ID := 1, Name := str "Song", GroupID := 1 },
         { ID := 7, Name := str "Hysteria", GroupID := 1 }]
    ∧ ∀ (env : Env) (payload : NewSongPayload) (w : World) (p : Payload),
        (NewSong env (Except.ok payload) w).1 = Outcome.response 201 p →
        ∃ groupID, p = Payload.song { ID := 0, Name := payload.Song, GroupID := groupID } := by
  refine ⟨rfl, by decide, by decide, ?_⟩
  intro env payload w p h
  unfold NewSong at h
  dsimp only at h
  split at h
  · simp [respondJSONError, RespondJSON] at h
  split at h
  · simp [respondJSONError, RespondJSON] at h
  split at h
  · simp [respondJSONError, RespondJSON] at h
  split at h
  · simp [respondJSONError, RespondJSON] at h
  split at h
  · simp [respondJSONError, RespondJSON] at h
  split at h
  · simp [respondJSONError, RespondJSON] at h
  split at h
  · simp [respondJSONError, RespondJSON] at h
  split at h
  · simp [respondJSONError, RespondJSON] at h
  split at h
  · simp [respondJSONError, RespondJSON] at h
  · simp only [RespondJSON, Outcome.response.injEq, true_and] at h
    exact ⟨_, h.symm⟩

/-! ## C10: the transaction of `CreateSongWithDetails` -/

/-- C10: if the transaction starts, the song insert succeeds and the details
insert fails, `CreateSongWithDetails` returns the error, the transaction is
rolled back and never committed (the log gains the call, `Begin` and
`Rollback` only) and the committed tables are what they were: no song row is
added.  In every run, `Commit` is called only when both inserts succeeded,
and a run without `Commit` leaves the committed tables unchanged. -/
theorem CreateSongWithDetails_atomic (env : Env) (song : Song) (details : SongDetails)
    (w : World) :
    (env.fault Stmt.begin = none → env.fault Stmt.insertSong = none →
      ∀ m, env.fault Stmt.insertDetails = some m →
        (CreateSongWithDetails env song details w).1
            = some (GoError.errorf "failed to insert song details: %v" (GoError.other m))
        ∧ (CreateSongWithDetails env song details w).2.tables = w.tables
        ∧ (CreateSongWithDetails env song details w).2.trace
            = w.trace ++ [Event.CreateSongWithDetails song details, Event.txBegin,
                Event.txRollback])
    ∧ ∃ evs, (CreateSongWithDetails env song details w).2.trace = w.trace ++ evs
        ∧ (Event.txCommit ∈ evs →
            env.fault Stmt.insertSong = none ∧ env.fault Stmt.insertDetails = none
            ∧ (CreateSongWithDetails env song details w).1 = none)
        ∧ (Event.txCommit ∉ evs →
            (CreateSongWithDetails env song details w).2.tables = w.tables) := by
  constructor
  · intro hb hs m hd
    unfold CreateSongWithDetails
    simp [hb, hs, hd, txRollback, World.record]
  · unfold CreateSongWithDetails
    dsimp only
    cases hb : env.fault Stmt.begin with
    | some m =>
      exact ⟨[Event.CreateSongWithDetails song details], by simp [World.record],
        by simp, by simp [World.record]⟩
    | none =>
      dsimp only
      cases hs : env.fault Stmt.insertSong with
      | some m =>
        exact ⟨[Event.CreateSongWithDetails song details, Event.txBegin, Event.txRollback],
          by simp [World.record, txRollback], by simp, by simp [World.record, txRollback]⟩
      | none =>
        dsimp only
        cases hd : env.fault Stmt.insertDetails with
        | some m =>
          exact ⟨[Event.CreateSongWithDetails song details, Event.txBegin, Event.txRollback],
            by simp [World.record, txRollback], by simp, by simp [World.record, txRollback]⟩
        | none =>
          refine ⟨[Event.CreateSongWithDetails song details, Event.txBegin, Event.txCommit],
            ?_, by simp, by simp⟩
          dsimp only [txCommit]
          cases env.fault Stmt.commit <;> simp [World.record]

/-- C10 on an engine that rejects the insert into `song_details`: the call
fails, the log shows `Begin` and `Rollback`, and the tables are untouched. -/
theorem CreateSongWithDetails_atomic_witness :
    CreateSongWithDetails detailsFailEnv { ID := 0, Name := str "Hysteria", GroupID := 1 }
        { ID := 0, SongID := 0, ReleaseDate := str "16.07.2006", Text := str "Ooh baby",
          Link := str "http://l" } (worldWithLyrics (str "A"))
      = (some (GoError.errorf "failed to insert song details: %v"
            (GoError.other (str "invalid input syntax for type date"))),
         { tables := (worldWithLyrics (str "A")).tables
           trace := [Event.CreateSongWithDetails
               { ID := 0, Name := str "Hysteria", GroupID := 1 }
               { ID := 0, SongID := 0, ReleaseDate := str "16.07.2006", Text := str "Ooh baby",
                 Link := str "http://l" },
             Event.txBegin, Event.txRollback] }) := by
  obtain ⟨h1, h2, h3⟩ := (CreateSongWithDetails_atomic detailsFailEnv
    { ID := 0, Name := str "Hysteria", GroupID := 1 }
    { ID := 0, SongID := 0, ReleaseDate := str "16.07.2006", Text := str "Ooh baby",
      Link := str "http://l" } (worldWithLyrics (str "A"))).1 rfl rfl
    (str "invalid input syntax for type date") rfl
  refine Prod.ext h1 ?_
  rcases hw : (CreateSongWithDetails detailsFailEnv
    { ID := 0, Name := str "Hysteria", GroupID := 1 }
    { ID := 0, SongID := 0, ReleaseDate := str "16.07.2006", Text := str "Ooh baby",
      Link := str "http://l" } (worldWithLyrics (str "A"))).2 with ⟨t, tr⟩
  rw [hw] at h2 h3
  simp only at h2 h3
  subst h2 h3
  rfl

/-! ## C11, C12: the pages of `GetText` -/

theorem digitChar_toNat (m : Nat) (h : m < 10) : (Nat.digitChar m).toNat = 48 + m := by
  interval_cases m <;> rfl

theorem toDigitsCore_ne_nil (fuel : Nat) : ∀ (n : Nat) (ds : List Char),
    ds ≠ [] ∨ 0 < fuel → Nat.toDigitsCore 10 fuel n ds ≠ [] := by
  induction fuel with
  | zero =>
    intro n ds h
    rcases h with h | h
    · simpa [Nat.toDigitsCore] using h
    · omega
  | succ f ih =>
    intro n ds _
    simp only [Nat.toDigitsCore]
    split
    · simp
    · exact ih _ _ (Or.inl (by simp))

theorem decimal_ne_nil (n : Nat) : decimal n ≠ [] := by
  unfold decimal Nat.toDigits
  intro h
  exact toDigitsCore_ne_nil (n + 1) n [] (Or.inr (by omega)) (List.map_eq_nil_iff.mp h)

/-- The fast loop of `Atoi`, started at 0 on the digits of `n` followed by
more bytes, reaches `n` before it goes on. -/
theorem atoiFastLoop_toDigitsCore (fuel : Nat) : ∀ (n : Nat) (ds : List Char), n < fuel →
    atoiFastLoop ((Nat.toDigitsCore 10 fuel n ds).map Char.toNat) 0
      = atoiFastLoop (ds.map Char.toNat) (n : Int) := by
  induction fuel with
  | zero => intro n ds h; omega
  | succ f ih =>
    intro n ds h
    have hd : (Nat.digitChar (n % 10)).toNat = 48 + n % 10 :=
      digitChar_toNat _ (Nat.mod_lt _ (by norm_num))
    have hstep : ∀ (acc : Int), atoiFastLoop (((Nat.digitChar (n % 10)) :: ds).map Char.toNat) acc
        = atoiFastLoop (ds.map Char.toNat) (acc * 10 + ((n % 10 : Nat) : Int)) := by
      intro acc
      simp only [List.map_cons, atoiFastLoop, hd]
      have e : (48 + n % 10 + 256 - 48) % 256 = n % 10 := by omega
      rw [e, if_neg (by omega)]
    simp only [Nat.toDigitsCore]
    split
    · rename_i h0
      rw [hstep 0]
      congr 1
      have : n % 10 = n := by omega
      rw [this]; simp
    · rename_i h0
      rw [ih (n / 10) _ (by omega), hstep]
      congr 1
      have := Nat.div_add_mod n 10
      push_cast
      omega

theorem atoiFastLoop_decimal (n : Nat) : atoiFastLoop (decimal n) 0 = some (n : Int) := by
  unfold decimal Nat.toDigits
  rw [atoiFastLoop_toDigitsCore (n + 1) n [] (by omega)]
  rfl

/-- The loop of `ParseUint`, started at 0 on the digits of `n` followed by
more bytes, reaches `n` before it goes on, as long as `n` fits `uint64`. -/
theorem parseUintLoop_toDigitsCore (fuel : Nat) : ∀ (n : Nat) (ds : List Char), n < fuel →
    n ≤ maxUint64 →
    parseUintLoop ((Nat.toDigitsCore 10 fuel n ds).map Char.toNat) 0
      = parseUintLoop (ds.map Char.toNat) n := by
  induction fuel with
  | zero => intro n ds h; omega
  | succ f ih =>
    intro n ds h hmax
    have hd : (Nat.digitChar (n % 10)).toNat = 48 + n % 10 :=
      digitChar_toNat _ (Nat.mod_lt _ (by norm_num))
    have hstep : ∀ (acc : Nat), acc * 10 + n % 10 ≤ maxUint64 →
        parseUintLoop (((Nat.digitChar (n % 10)) :: ds).map Char.toNat) acc
        = parseUintLoop (ds.map Char.toNat) (acc * 10 + n % 10) := by
      intro acc hacc
      unfold maxUint64 at hacc
      simp only [List.map_cons, parseUintLoop, hd]
      rw [if_pos (by omega), if_neg (by unfold maxUint64; omega),
        if_neg (by unfold maxUint64; omega)]
      congr 1
      omega
    unfold maxUint64 at hmax
    simp only [Nat.toDigitsCore]
    split
    · rename_i h0
      rw [hstep 0 (by unfold maxUint64; omega)]
      congr 1
      omega
    · rename_i h0
      have := Nat.div_add_mod n 10
      rw [ih (n / 10) _ (by omega) (by unfold maxUint64; omega),
        hstep _ (by unfold maxUint64; omega)]
      congr 1
      omega

theorem parseUintLoop_decimal (n : Nat) (h : n ≤ maxUint64) :
    parseUintLoop (decimal n) 0 = (n, none) := by
  unfold decimal Nat.toDigits
  rw [parseUintLoop_toDigitsCore (n + 1) n [] (by omega) h]
  rfl

/-- `Atoi` reads back what `Sprint` prints, for every non-negative `int`. -/
theorem Atoi_Sprint (p : Int) (h0 : 0 ≤ p) (h1 : p ≤ maxInt) : Atoi (Sprint p) = (p, none) := by
  unfold maxInt at h1
  have hS : Sprint p = decimal p.toNat := by unfold Sprint; rw [if_neg (by omega)]
  have hfast := atoiFastLoop_decimal p.toNat
  have hslow := parseUintLoop_decimal p.toNat (by unfold maxUint64; omega)
  have hne := decimal_ne_nil p.toNat
  have hp : ((p.toNat : Nat) : Int) = p := Int.toNat_of_nonneg h0
  rw [hS]
  generalize decimal p.toNat = s at *
  cases s with
  | nil => exact absurd rfl hne
  | cons c cs =>
    have hc : ¬ (c = 45 ∨ c = 43) := by
      intro hc
      simp only [atoiFastLoop] at hfast
      rcases hc with hc | hc <;> subst hc <;> simp at hfast
    have hc' : ¬ (c = 43 ∨ c = 45) := fun h => hc h.symm
    have hc45 : ¬ c = 45 := fun h => hc (Or.inl h)
    unfold Atoi
    split
    · simp only [if_neg hc, List.length_cons, hfast, if_neg hc45, hp]
      rw [if_neg (by omega)]
    · unfold ParseInt
      dsimp only
      rw [if_neg hc']
      unfold ParseUint
      rw [if_neg hne, hslow]
      have h63 : ¬ (¬ c = 45 ∧ p.toNat ≥ 9223372036854775808) := by omega
      have h63' : ¬ (c = 45 ∧ p.toNat > 9223372036854775808) := by omega
      simp only [if_neg h63, if_neg h63', if_neg hc45, hp]

theorem Join_cons_of_ne_nil (a : GoString) (L : List GoString) (sep : GoString) (h : L ≠ []) :
    Join (a :: L) sep = a ++ sep ++ Join L sep := by
  cases L with
  | nil => exact absurd rfl h
  | cons b rest => rfl

theorem Join_append (sep : GoString) (xs ys : List GoString) (hx : xs ≠ []) (hy : ys ≠ []) :
    Join (xs ++ ys) sep = Join xs sep ++ sep ++ Join ys sep := by
  induction xs with
  | nil => exact absurd rfl hx
  | cons a rest ih =>
    cases rest with
    | nil =>
      rw [List.singleton_append, Join_cons_of_ne_nil a ys sep hy]
      rfl
    | cons b rest' =>
      rw [List.cons_append, Join_cons_of_ne_nil a _ sep (by simp),
        Join_cons_of_ne_nil a _ sep (by simp), ih (by simp)]
      simp only [List.append_assoc]

/-- Joining what `Split` cut gives the text back. -/
theorem Join_splitLoop (s cur : GoString) :
    Join (splitLoop s cur) (str "\n\n") = cur.reverse ++ s := by
  have hsep : str "\n\n" = [10, 10] := by decide
  rw [hsep]
  induction s, cur using splitLoop.induct with
  | case1 cur => simp [splitLoop, Join]
  | case2 rest cur ih =>
    have hne : splitLoop rest [] ≠ [] := by
      intro h
      have := splitLoop_length_pos rest []
      rw [h] at this
      simp at this
    simp only [splitLoop]
    rw [Join_cons_of_ne_nil _ _ _ hne, ih]
    simp
  | case3 c rest cur h ih =>
    rw [splitLoop]
    · rw [ih]; simp
    · exact h

theorem Join_Split (text : GoString) : Join (Split text) (str "\n\n") = text := by
  unfold Split
  rw [Join_splitLoop]
  rfl

/-- Cutting a non-empty list into consecutive pieces of `L` elements, joining
each piece and then joining the results is joining the list. -/
theorem Join_chunks (L : Nat) (hL : 1 ≤ L) (sep : GoString) : ∀ (k : Nat) (xs : List GoString),
    xs ≠ [] → k = (xs.length + L - 1) / L →
    Join ((List.range k).map (fun i => Join ((xs.drop (i * L)).take L) sep)) sep
      = Join xs sep := by
  intro k
  induction k with
  | zero =>
    intro xs hne hk
    exfalso
    have hpos : 0 < xs.length := List.length_pos.mpr hne
    have : L ≤ xs.length + L - 1 := by omega
    have := Nat.div_pos this (by omega)
    omega
  | succ k ih =>
    intro xs hne hk
    have hpos : 0 < xs.length := List.length_pos.mpr hne
    by_cases hle : xs.length ≤ L
    · have hk0 : k = 0 := by
        have h2 : (xs.length + L - 1) / L < 2 := by
          rw [Nat.div_lt_iff_lt_mul (by omega)]
          omega
        omega
      subst hk0
      simp [List.take_of_length_le hle, Join]
    · have hgt : L < xs.length := by omega
      have hys : xs.drop L ≠ [] := by
        intro h
        have := congrArg List.length h
        simp at this
        omega
      have hk' : k = ((xs.drop L).length + L - 1) / L := by
        rw [List.length_drop]
        have e : xs.length + L - 1 = (xs.length - L + L - 1) + L := by omega
        rw [e, Nat.add_div_right _ (by omega)] at hk
        omega
      have hkpos : 0 < k := by
        rw [hk']
        apply Nat.div_pos _ (by omega)
        have : 0 < (xs.drop L).length := List.length_pos.mpr hys
        omega
      have hrest : (List.range k).map (fun i => Join ((xs.drop ((i + 1) * L)).take L) sep)
          = (List.range k).map (fun i => Join (((xs.drop L).drop (i * L)).take L) sep) := by
        apply List.map_congr_left
        intro i _
        rw [List.drop_drop]
        congr 3
        ring
      rw [List.range_succ_eq_map, List.map_cons, List.map_map]
      have hcomp : ((fun i => Join ((xs.drop (i * L)).take L) sep) ∘ Nat.succ)
          = (fun i => Join ((xs.drop ((i + 1) * L)).take L) sep) := rfl
      rw [hcomp, hrest]
      have hne' : (List.range k).map
          (fun i => Join (((xs.drop L).drop (i * L)).take L) sep) ≠ [] := by
        intro h
        have := congrArg List.length h
        simp at this
        omega
      rw [Join_cons_of_ne_nil _ _ _ hne', ih (xs.drop L) hys hk']
      simp only [Nat.zero_mul, List.drop_zero]
      have htake : xs.take L ≠ [] := by
        intro h
        have := congrArg List.length h
        rw [List.length_take, List.length_nil] at this
        omega
      rw [← Join_append sep _ _ htake hys, List.take_append_drop]

theorem pageValues_Get (p l : Int) :
    (pageValues p l).Get (str "page") = Sprint p
    ∧ (pageValues p l).Get (str "limit") = Sprint l := by
  constructor <;> simp +decide [pageValues, Values.Get, Values.at]

theorem effectivePage_Sprint (p : Int) (h1 : 1 ≤ p) (h2 : p ≤ maxInt) :
    effectivePage (Sprint p) = p := by
  unfold effectivePage
  rw [Atoi_Sprint p (by omega) h2]
  simp only
  rw [if_neg (by omega)]

theorem effectiveLimit_Sprint (l : Int) (h1 : 1 ≤ l) (h2 : l ≤ maxInt) :
    effectiveLimit (Sprint l) = l := by
  unfold effectiveLimit
  rw [Atoi_Sprint l (by omega) h2]
  simp only
  rw [if_neg (by simp; omega)]

/-- The answer of `GetText` to `?page=p&limit=l` on a text that is found. -/
theorem GetText_pageValues (env : Env) (songID : GoString) (w : World) (text : GoString)
    (p l : Int) (hlen : (text.length : Int) ≤ maxInt)
    (hfound : (TextListByID env songID w).1 = (text, true, none))
    (hp1 : 1 ≤ p) (hp2 : p ≤ maxInt) (hl1 : 1 ≤ l) (hl2 : l ≤ maxInt)
    (hno : (p - 1) * l ≤ maxInt) :
    (GetText env songID (pageValues p l) w).1 =
      if ((Split text).length : Int) ≤ (p - 1) * l
      then respondJSONError 404 (Msg.lit "no more verses")
      else RespondJSON 200 (Payload.json { Text := (Join
        (((Split text).take (min (p * l).toNat (Split text).length)).drop
          ((p - 1) * l).toNat) (str "\n\n")) }) := by
  have hP := effectivePage_Sprint p hp1 hp2
  have hL := effectiveLimit_Sprint l hl1 hl2
  rw [GetText_fst, hfound]
  dsimp only
  rw [if_neg (by decide), (pageValues_Get p l).1, (pageValues_Get p l).2,
    paginate_eq text _ _ hlen (by rw [hP, hL]; exact hno), hP, hL]

/-- The arithmetic of `ceil(n/L)` pages. -/
theorem pageCount_bounds (n L : Nat) (hn : 1 ≤ n) (hL : 1 ≤ L) :
    n ≤ (n + L - 1) / L * L ∧ (n + L - 1) / L * L ≤ n + L - 1 ∧ 1 ≤ (n + L - 1) / L
    ∧ (n ≤ L → (n + L - 1) / L = 1) := by
  have h1 := Nat.div_mul_le_self (n + L - 1) L
  have h2 : n + L - 1 < ((n + L - 1) / L + 1) * L := by
    have := Nat.lt_succ_iff.mpr (le_refl ((n + L - 1) / L))
    exact (Nat.div_lt_iff_lt_mul (by omega)).mp this
  have h3 : 1 ≤ (n + L - 1) / L := Nat.div_pos (by omega) (by omega)
  refine ⟨?_, h1, h3, ?_⟩
  · rw [Nat.add_mul, Nat.one_mul] at h2
    omega
  · intro hle
    have : (n + L - 1) / L < 2 := by
      rw [Nat.div_lt_iff_lt_mul (by omega)]
      omega
    omega
/-- C11: for a text that is found, with `n` verses, and a limit `l` between 1
and the greatest `int`, the requests `?page=p&limit=l` for `p = 1..ceil(n/l)`
are all answered 200, page `ceil(n/l)+1` is answered 404, and the page texts
joined in order with the blank line are the stored text: no verse is lost,
repeated or moved. -/
theorem GetText_pages_partition (env : Env) (songID : GoString) (w : World)
    (text : GoString) (l : Int)
    (hlen : (text.length : Int) ≤ maxInt)
    (hfound : (TextListByID env songID w).1 = (text, true, none))
    (hl1 : 1 ≤ l) (hl2 : l ≤ maxInt) :
    1 ≤ (Split text).length
    ∧ (∀ p : Int, 1 ≤ p → p ≤ (pageCount (Split text).length l : Int) →
        (GetText env songID (pageValues p l) w).1.status = some 200)
    ∧ (GetText env songID (pageValues ((pageCount (Split text).length l : Int) + 1) l) w).1.status
        = some 404
    ∧ Join ((List.range (pageCount (Split text).length l)).map (fun (i : Nat) =>
          (GetText env songID (pageValues ((i : Int) + 1) l) w).1.text)) (str "\n\n")
        = text := by
  have hn1 : 1 ≤ (Split text).length := splitLoop_length_pos text []
  have hn2 : (Split text).length ≤ text.length / 2 + 1 := splitLoop_length_le text []
  have hJS := Join_Split text
  unfold pageCount
  generalize hL : l.toNat = L
  have hLl : (L : Int) = l := by rw [← hL]; exact Int.toNat_of_nonneg (by omega)
  have hL1 : 1 ≤ L := by omega
  obtain ⟨hk1, hk2, hk3, hk4⟩ := pageCount_bounds (Split text).length L hn1 hL1
  generalize hverses : Split text = verses at *
  generalize hk : (verses.length + L - 1) / L = k at *
  unfold maxInt at hlen hl2
  -- a page `i+1` with `i < k` starts inside the text
  have hinside : ∀ i : Nat, i < k → i * L < verses.length := by
    intro i hi
    have : (i + 1) * L ≤ k * L := Nat.mul_le_mul_right L hi
    rw [Nat.add_mul, Nat.one_mul] at this
    omega
  have hkL : k * L ≤ 9223372036854775807 := by
    by_cases hle : verses.length ≤ L
    · rw [hk4 hle, Nat.one_mul]; omega
    · omega
  have hkmax : k ≤ 9223372036854775806 := by
    have : k * 1 ≤ k * L := Nat.mul_le_mul_left k hL1
    by_cases hle : verses.length ≤ L
    · rw [hk4 hle]; omega
    · omega
  have hpage : ∀ i : Nat, i ≤ k →
      (GetText env songID (pageValues ((i : Int) + 1) l) w).1 =
        if (verses.length : Int) ≤ ((i * L : Nat) : Int)
        then respondJSONError 404 (Msg.lit "no more verses")
        else RespondJSON 200 (Payload.json { Text := (Join
          ((verses.take (min ((i + 1) * L) verses.length)).drop (i * L)) (str "\n\n")) }) := by
    intro i hi
    have e1 : ((i : Int) + 1 - 1) * l = ((i * L : Nat) : Int) := by
      push_cast; rw [hLl]; ring
    have e2 : ((i : Int) + 1) * l = (((i + 1) * L : Nat) : Int) := by
      push_cast; rw [hLl]
    have hiL : i * L ≤ k * L := Nat.mul_le_mul_right L hi
    have h := GetText_pageValues env songID w text ((i : Int) + 1) l
      (by unfold maxInt; exact hlen) hfound (by omega) (by unfold maxInt; omega) hl1
      (by unfold maxInt; exact hl2) (by rw [e1]; unfold maxInt; omega)
    rw [hverses, e1, e2, Int.toNat_ofNat, Int.toNat_ofNat] at h
    exact h
  refine ⟨hn1, ?_, ?_, ?_⟩
  · intro p hp1 hp2
    obtain ⟨i, rfl⟩ : ∃ i : Nat, p = (i : Int) + 1 := ⟨(p - 1).toNat, by omega⟩
    have hi : i < k := by omega
    rw [hpage i (by omega), if_neg (by have := hinside i hi; omega)]
    rfl
  · rw [hpage k (le_refl k), if_pos (by omega)]
    rfl
  · have hmap : (List.range k).map (fun (i : Nat) =>
          (GetText env songID (pageValues ((i : Int) + 1) l) w).1.text)
        = (List.range k).map (fun i => Join ((verses.drop (i * L)).take L) (str "\n\n")) := by
      apply List.map_congr_left
      intro i hi
      have hi' : i < k := List.mem_range.mp hi
      have hin := hinside i hi'
      rw [hpage i (by omega), if_neg (by omega)]
      simp only [RespondJSON, Outcome.text]
      rw [List.drop_take]
      congr 1
      rw [List.take_eq_take, List.length_drop]
      rw [Nat.add_mul, Nat.one_mul]
      omega
    rw [hmap, Join_chunks L hL1 (str "\n\n") k verses
      (by intro h; rw [h] at hn1; simp at hn1) hk.symm]
    exact hJS

/-- C11 on the lyrics `A`, `B`, `C` with limit 2: pages 1 and 2 are answered
200, page 3 is answered 404, and the two page texts joined give the lyrics
back. -/
theorem GetText_pages_partition_witness :
    pageCount (Split (str "A\n\nB\n\nC")).length 2 = 2
    ∧ (GetText exampleEnv (str "1") (pageValues 1 2)
        (worldWithLyrics (str "A\n\nB\n\nC"))).1.status = some 200
    ∧ (GetText exampleEnv (str "1") (pageValues 2 2)
        (worldWithLyrics (str "A\n\nB\n\nC"))).1.status = some 200
    ∧ (GetText exampleEnv (str "1") (pageValues 3 2)
        (worldWithLyrics (str "A\n\nB\n\nC"))).1.status = some 404
    ∧ Join [(GetText exampleEnv (str "1") (pageValues 1 2)
              (worldWithLyrics (str "A\n\nB\n\nC"))).1.text,
            (GetText exampleEnv (str "1") (pageValues 2 2)
              (worldWithLyrics (str "A\n\nB\n\nC"))).1.text] (str "\n\n")
        = str "A\n\nB\n\nC" := by
  obtain ⟨_, h200, h404, hjoin⟩ := GetText_pages_partition exampleEnv (str "1")
    (worldWithLyrics (str "A\n\nB\n\nC")) (str "A\n\nB\n\nC") 2
    (by decide) (by decide) (by decide) (by decide)
  have hc : pageCount (Split (str "A\n\nB\n\nC")).length 2 = 2 := by decide
  rw [hc] at h200 h404 hjoin
  exact ⟨hc, h200 1 (by decide) (by decide), h200 2 (by decide) (by decide), h404, hjoin⟩

/-- C12 fails on the code: the product `(page-1)*limit` can wrap to a negative
`start`, which passes the test `start >= len(verses)` and reaches the slice.
With `page=9223372036854775807` and `limit=2` on a text of three verses, both
parsed without error, `start` is -4 and `end` is -2, and the slice expression
`verses[-4:-2]` panics; so does `page=3` with `limit=4611686018427387904`,
where `start` is `-2^63`. -/
theorem GetText_slice_out_of_range :
    Atoi (str "9223372036854775807") = (9223372036854775807, none)
    ∧ effectivePage ((pageQuery "9223372036854775807" "2").Get (str "page"))
        = 9223372036854775807
    ∧ effectiveLimit ((pageQuery "9223372036854775807" "2").Get (str "limit")) = 2
    ∧ wrapInt (wrapInt (9223372036854775807 - 1) * 2) = -4
    ∧ wrapInt (-4 + 2) = -2
    ∧ (Split (str "A\n\nB\n\nC")).length = 3
    ∧ sliceOf (Split (str "A\n\nB\n\nC")) (-4) (-2) = none
    ∧ (GetText exampleEnv (str "1") (pageQuery "9223372036854775807" "2")
        (worldWithLyrics (str "A\n\nB\n\nC"))).1 = Outcome.panic Fault.sliceBounds
    ∧ wrapInt (wrapInt (3 - 1) * 4611686018427387904) = -9223372036854775808
    ∧ (GetText exampleEnv (str "1") (pageQuery "3" "4611686018427387904")
        (worldWithLyrics (str "A\n\nB\n\nC"))).1 = Outcome.panic Fault.sliceBounds := by
  decide

end Music
